import Mathlib

/-!
# NeroClient `Worker` (src/index.js): connection lifecycle, heartbeat, backoff

A shallow embedding of the `Worker` class.  The object's fields, the armed
timers, the events handed to the embedding application and the calls made on
the socket are explicit components of a `World`; every method is a function
on worlds.  Library code that is not part of the repository (`JSON.parse`,
`JSON.stringify`, string coercion, the opcode table of `./structures/types`)
is taken as a parameter (`Deps`).
-/

namespace NeroClient

/-! ## JavaScript values -/

/-- An `Error` object: its class name and its message. -/
structure JsError where
  name : String
  message : String
  deriving DecidableEq

/-- The JavaScript values the client handles: what `JSON.parse` can return,
plus `undefined` (the result of reading an absent property) and `Error`
objects.  Numbers are integral. -/
inductive JsVal where
  | undefined : JsVal
  | null : JsVal
  | bool (b : Bool) : JsVal
  | num (n : Int) : JsVal
  | str (s : String) : JsVal
  | arr (xs : List JsVal) : JsVal
  | obj (kvs : List (String × JsVal)) : JsVal
  | error (e : JsError) : JsVal

/-- Look a key up in the property list of an object. -/
def lookupKey (k : String) : List (String × JsVal) → JsVal
  | [] => JsVal.undefined
  | (k', v) :: rest => if k' = k then v else lookupKey k rest

/-- Property read `v.k` for a key `k` that no prototype defines: a `TypeError`
on `undefined` and `null`, the stored value on an object, `undefined` on
anything else. -/
def getProp (v : JsVal) (k : String) : Except JsError JsVal :=
  match v with
  | JsVal.undefined => Except.error ⟨"TypeError", "Cannot read property of undefined"⟩
  | JsVal.null => Except.error ⟨"TypeError", "Cannot read property of null"⟩
  | JsVal.obj kvs => Except.ok (lookupKey k kvs)
  | _ => Except.ok JsVal.undefined

/-- Truthiness, as tested by `if (v)` and `a && b`. -/
def truthy : JsVal → Bool
  | JsVal.undefined => false
  | JsVal.null => false
  | JsVal.bool b => b
  | JsVal.num n => n != 0
  | JsVal.str s => s != ""
  | JsVal.arr _ => true
  | JsVal.obj _ => true
  | JsVal.error _ => true

/-- Strict equality `a === b` as the `switch` of `onMessage` uses it, between
a freshly parsed value and a constant of the opcode table: primitives compare
by value, objects by identity, and a parsed object is never a table constant. -/
def strictEq : JsVal → JsVal → Bool
  | JsVal.undefined, JsVal.undefined => true
  | JsVal.null, JsVal.null => true
  | JsVal.bool a, JsVal.bool b => a == b
  | JsVal.num a, JsVal.num b => a == b
  | JsVal.str a, JsVal.str b => a == b
  | _, _ => false

/-- The numeric value of an operand of `beat - 3000` and `beat + 5000`;
`none` when the operand is not a number (JavaScript coercion is not tracked). -/
def toNumber : JsVal → Option Int
  | JsVal.num n => some n
  | _ => none

/-! ## Library code outside the repository -/

/-- The opcode table `MESSAGE_TYPES` of `./structures/types`, with the five
keys `index.js` reads (the source spells the fourth `hearbeat`). -/
structure OpCodes where
  identify : JsVal
  ready : JsVal
  message : JsVal
  hearbeat : JsVal
  unauthorized : JsVal

/-- What `index.js` calls but does not define: the opcode table, `JSON.parse`
(returning the parsed value or the `SyntaxError` it throws), `JSON.stringify`,
the string conversion of template literals, and `process.pid`. -/
structure Deps where
  OPCODE : OpCodes
  jsonParse : String → Except JsError JsVal
  jsonStringify : JsVal → String
  toStr : JsVal → String
  pid : Nat

/-! ## State -/

/-- The fields of a `Worker` object (`this`); `ws` names the socket held in
`this.ws` by its creation index, the two handles are `null` (`none`) or the
handle of a timer. -/
structure Worker where
  host : JsVal
  token : JsVal
  connectionAttempts : Nat
  ws : Nat
  shardId : JsVal
  shardCount : JsVal
  ready : Bool
  connected : Bool
  hearbeat : JsVal
  hearbeatInterval : Option Nat
  hearbeatTimeout : Option Nat

/-- The callback a timer runs: the arrow functions passed to `setInterval` in
`setupHeartbeat` (closed over `beat`), to `setTimeout` in that tick, and to
`setTimeout` in `onDisconnect`. -/
inductive TimerAction where
  | heartbeatTick (beat : JsVal) : TimerAction
  | ackTimeout : TimerAction
  | reconnectTimer : TimerAction

/-- An armed timer: its handle, whether it repeats (`setInterval`), the delay
requested in milliseconds and the time it is next due (`none` when the delay
is not a number), and its callback. -/
structure Timer where
  id : Nat
  repeating : Bool
  delay : Option ℚ
  due : Option ℚ
  action : TimerAction

/-- The worker together with everything around it that its methods touch:
the clock (ms), the armed timers, the events emitted so far (name, payload),
the sockets created, the frames written (`ws.send`, with the socket written
to), the sockets `ws.close(1006, ...)` was called on, and whether the
transport accepts a write (set by the transport, never by the worker). -/
structure World where
  self : Worker
  now : ℚ
  nextHandle : Nat
  timers : List Timer
  emitted : List (JsVal × JsVal)
  sockets : Nat
  sent : List (Nat × String)
  closeCalls : List Nat
  writable : Bool

/-- The result of running a method: the world it leaves, and the exception
it raised into its caller, if any. -/
structure Outcome where
  world : World
  thrown : Option JsError

/-! ## Primitives: event emitter, socket, timers -/

/-- `this.emit(name, payload)`. -/
def emit (name payload : JsVal) (w : World) : World :=
  { w with emitted := w.emitted ++ [(name, payload)] }

/-- `this.ws.send(data)`: writes the frame, or throws when the transport
refuses the write. -/
def wsSend (data : String) (w : World) : Except JsError World :=
  if w.writable then Except.ok { w with sent := w.sent ++ [(w.self.ws, data)] }
  else Except.error ⟨"Error", "not opened"⟩

/-- Arm a timer with a fresh handle; returns the handle. -/
def setTimer (repeating : Bool) (delay : Option ℚ) (action : TimerAction) (w : World) :
    Nat × World :=
  (w.nextHandle,
   { w with
     nextHandle := w.nextHandle + 1
     timers := w.timers ++
       [{ id := w.nextHandle, repeating := repeating, delay := delay,
          due := delay.map (fun t => w.now + t), action := action }] })

/-- `setInterval(callback, delay)`. -/
def setInterval (delay : Option ℚ) (action : TimerAction) (w : World) : Nat × World :=
  setTimer true delay action w

/-- `setTimeout(callback, delay)`. -/
def setTimeout (delay : Option ℚ) (action : TimerAction) (w : World) : Nat × World :=
  setTimer false delay action w

/-- Disarm the timer behind a handle; a `null` handle, or the handle of a
timer that is no longer armed, is a no-op. -/
def clearTimer (handle : Option Nat) (w : World) : World :=
  match handle with
  | none => w
  | some h => { w with timers := w.timers.filter (fun t => t.id != h) }

/-- `clearInterval(handle)`. -/
def clearInterval (handle : Option Nat) (w : World) : World := clearTimer handle w

/-- `clearTimeout(handle)`. -/
def clearTimeout (handle : Option Nat) (w : World) : World := clearTimer handle w

/-! ## Methods of `Worker` -/

/-- `connect()`: `this.ws = new websocket(this.host)`; the listeners it
registers are the `open`, `error` and `close` cases of `step`. -/
def connect (w : World) : World :=
  { w with self := { w.self with ws := w.sockets }, sockets := w.sockets + 1 }

/-- The world in which a constructor call starts assigning fields: time 0,
no timer, no emitted event, no socket; the fields as lines 17 to 25 set them. -/
def Worker.fields (shardToken host : JsVal) (writable : Bool) : World :=
  { self :=
      { host := host, token := shardToken, connectionAttempts := 0, ws := 0,
        shardId := JsVal.null, shardCount := JsVal.null,
        ready := false, connected := false, hearbeat := JsVal.num (-1),
        hearbeatInterval := none, hearbeatTimeout := none }
    now := 0, nextHandle := 0, timers := [], emitted := [], sockets := 0,
    sent := [], closeCalls := [], writable := writable }

/-- The constructor: throws on a falsy token or host, otherwise initialises
the fields and calls `connect()`. -/
def Worker.new (shardToken host : JsVal) (writable : Bool) : Except JsError World :=
  if !truthy shardToken then Except.error ⟨"Error", "You need to pass in a secret to use!"⟩
  else if !truthy host then Except.error ⟨"Error", "You need to pass in a host to connect to!"⟩
  else Except.ok (connect (Worker.fields shardToken host writable))

/-- The world in which `new Worker(...)` is evaluated: time 0, no timer, no
emitted event, no socket created; the fields of the object under construction
are not assigned yet. -/
def World.start (writable : Bool) : World :=
  { self :=
      { host := JsVal.undefined, token := JsVal.undefined, connectionAttempts := 0, ws := 0,
        shardId := JsVal.undefined, shardCount := JsVal.undefined,
        ready := false, connected := false, hearbeat := JsVal.undefined,
        hearbeatInterval := none, hearbeatTimeout := none }
    now := 0, nextHandle := 0, timers := [], emitted := [], sockets := 0,
    sent := [], closeCalls := [], writable := writable }

/-- The constructor, statement by statement, as a method on the world it is
called in: a `throw` of line 15 or 16 leaves that world as it was (no field is
assigned, `connect()` is not reached); otherwise lines 17 to 25 assign the
fields and line 26 calls `connect()`. -/
def Worker.construct (shardToken host : JsVal) (w : World) : Outcome :=
  if !truthy shardToken then ⟨w, some ⟨"Error", "You need to pass in a secret to use!"⟩⟩
  else if !truthy host then ⟨w, some ⟨"Error", "You need to pass in a host to connect to!"⟩⟩
  else
    ⟨connect { w with self :=
      { host := host, token := shardToken, connectionAttempts := 0, ws := 0,
        shardId := JsVal.null, shardCount := JsVal.null,
        ready := false, connected := false, hearbeat := JsVal.num (-1),
        hearbeatInterval := none, hearbeatTimeout := none } }, none⟩

/-- `onConnection()`: marks the worker connected (and registers the `message`
listener, the `message` case of `step`). -/
def onConnection (w : World) : World :=
  { w with self := { w.self with connected := true } }

/-- `reconnect()`: `this.ws.close(1006, 'Trying to reconnect!')`. -/
def reconnect (w : World) : World :=
  { w with closeCalls := w.closeCalls ++ [w.self.ws] }

/-- `onError(err)`. -/
def onError (err : JsVal) (w : World) : World :=
  reconnect (emit (JsVal.str "error") err w)

/-- `generateInterval(k)`, with the value `Math.random()` returns made an
argument. -/
def generateInterval (k : Nat) (random : ℚ) : ℚ :=
  let maxInterval : ℚ := ((2 : ℚ) ^ k - 1) * 1000
  let maxInterval := if maxInterval > 30 * 1000 then 30 * 1000 else maxInterval
  random * maxInterval

/-- `onDisconnect(code, number)`; `code` and `number` as the template literal
renders them, `random` the draw of `Math.random()` inside `generateInterval`. -/
def onDisconnect (code number : String) (random : ℚ) (w : World) : World :=
  let w := emit (JsVal.str "err")
    (JsVal.str ("Disconnected with code " ++ code ++ " and number " ++ number)) w
  let w := { w with self :=
    { w.self with connected := false, ready := false, hearbeat := JsVal.num (-1) } }
  let time := generateInterval w.self.connectionAttempts random
  let w := clearInterval w.self.hearbeatInterval w
  (setTimeout (some time) TimerAction.reconnectTimer w).2

/-- `setupHeartbeat(beat)`: arms the interval and stores its handle. -/
def setupHeartbeat (beat : JsVal) (w : World) : World :=
  let r := setInterval ((toNumber beat).map (fun b => ((b - 3000 : Int) : ℚ)))
    (TimerAction.heartbeatTick beat) w
  { r.2 with self := { r.2.self with hearbeatInterval := some r.1 } }

/-- The heartbeat envelope handed to `JSON.stringify` on every tick. -/
def heartbeatEnvelope (d : Deps) (w : World) : JsVal :=
  JsVal.obj [("op", d.OPCODE.hearbeat), ("shardID", w.self.shardId),
    ("shardToken", w.self.token)]

/-- The callback of the interval armed by `setupHeartbeat(beat)`. -/
def heartbeatTick (d : Deps) (beat : JsVal) (w : World) : World :=
  match wsSend (d.jsonStringify (heartbeatEnvelope d w)) w with
  | Except.ok w =>
    let r := setTimeout ((toNumber beat).map (fun b => ((b + 5000 : Int) : ℚ)))
      TimerAction.ackTimeout w
    { r.2 with self := { r.2.self with hearbeatTimeout := some r.1 } }
  | Except.error e => reconnect (emit (JsVal.str "error") (JsVal.error e) w)

/-- The callback of the timeout armed by a heartbeat tick. -/
def ackTimeout (w : World) : World :=
  reconnect (emit (JsVal.str "error")
    (JsVal.str "The master did not respond to the heartbeat!") w)

/-- The callback of the timeout armed by `onDisconnect`. -/
def reconnectTimer (w : World) : World :=
  connect { w with self :=
    { w.self with connectionAttempts := w.self.connectionAttempts + 1 } }

/-- The property read `msg.d.k`. -/
def getD (msg : JsVal) (k : String) : Except JsError JsVal :=
  match getProp msg "d" with
  | Except.ok dv => getProp dv k
  | Except.error e => Except.error e

/-- The reply built in the `identify` case of `onMessage`. -/
def identifyEnvelope (d : Deps) (w : World) : JsVal :=
  let message := [("op", d.OPCODE.identify), ("shardToken", w.self.token)]
  if truthy w.self.shardCount && truthy w.self.shardId then
    JsVal.obj (message ++
      [("d", JsVal.obj [("sc", w.self.shardCount), ("sid", w.self.shardId)])])
  else JsVal.obj message

/-- The `ready` case of `onMessage`, statement by statement; a property read
that throws leaves the world as the statements before it made it. -/
def onReady (msg : JsVal) (w : World) : Outcome :=
  match getD msg "heartbeat" with
  | Except.error e => ⟨w, some e⟩
  | Except.ok hb =>
    let w := { w with self := { w.self with hearbeat := hb } }
    let w := { w with self := { w.self with ready := true } }
    let w := setupHeartbeat hb w
    match getD msg "sid" with
    | Except.error e => ⟨w, some e⟩
    | Except.ok sid =>
      let w := { w with self := { w.self with shardId := sid } }
      match getD msg "sc" with
      | Except.error e => ⟨w, some e⟩
      | Except.ok sc =>
        let w := { w with self := { w.self with shardCount := sc } }
        match getProp msg "d" with
        | Except.error e => ⟨w, some e⟩
        | Except.ok dv =>
          let w := emit (JsVal.str "ws_ready") dv w
          match getD msg "reshard" with
          | Except.error e => ⟨w, some e⟩
          | Except.ok reshard =>
            if truthy reshard then ⟨emit (JsVal.str "ws_reshard") dv w, none⟩
            else ⟨w, none⟩

/-- `onMessage(msg)`: parse inside `try`/`catch`, then the `switch` over
`msg.op`, its cases tried in source order. -/
def onMessage (d : Deps) (msg : String) (w : World) : Outcome :=
  match d.jsonParse msg with
  | Except.error e => ⟨emit (JsVal.str "error") (JsVal.error e) w, none⟩
  | Except.ok msg =>
    match getProp msg "op" with
    | Except.error e => ⟨w, some e⟩
    | Except.ok op =>
      if strictEq op d.OPCODE.identify then
        match wsSend (d.jsonStringify (identifyEnvelope d w)) w with
        | Except.ok w => ⟨w, none⟩
        | Except.error e => ⟨w, some e⟩
      else if strictEq op d.OPCODE.ready then
        onReady msg w
      else if strictEq op d.OPCODE.message then
        match getD msg "event" with
        | Except.error e => ⟨w, some e⟩
        | Except.ok event =>
          match getD msg "data" with
          | Except.error e => ⟨w, some e⟩
          | Except.ok data => ⟨emit event data w, none⟩
      else if strictEq op d.OPCODE.hearbeat then
        ⟨clearTimeout w.self.hearbeatTimeout w, none⟩
      else if strictEq op d.OPCODE.unauthorized then
        ⟨emit (JsVal.str "error")
          (JsVal.str "The token was not accepted by the server!") w, none⟩
      else
        ⟨emit (JsVal.str "error")
          (JsVal.str ("Unkown Message " ++ d.jsonStringify msg)) w, none⟩

/-- The envelope `send(event, msg)` hands to `JSON.stringify`; `Date.now()`
is the clock, in whole milliseconds. -/
def sendEnvelope (d : Deps) (event msg : JsVal) (w : World) : JsVal :=
  JsVal.obj [("op", d.OPCODE.message), ("shardToken", w.self.token),
    ("shardID", w.self.shardId),
    ("d", JsVal.obj [("event", event), ("uwu", JsVal.str "uwu"),
      ("origin", JsVal.str ("worker-" ++ toString d.pid ++ "-" ++ d.toStr w.self.shardId)),
      ("data", msg), ("sendedAt", JsVal.num (Rat.floor w.now)),
      ("shardID", w.self.shardId)])]

/-- `send(event, msg)`. -/
def send (d : Deps) (event msg : JsVal) (w : World) : Outcome :=
  match wsSend (d.jsonStringify (sendEnvelope d event msg w)) w with
  | Except.ok w => ⟨w, none⟩
  | Except.error e => ⟨w, some e⟩

/-- The envelope of `emitRemote(event, msg)`; its `origin` template literal
spans a line break. -/
def emitRemoteEnvelope (d : Deps) (event msg : JsVal) (w : World) : JsVal :=
  JsVal.obj [("op", d.OPCODE.message), ("shardToken", w.self.token),
    ("shardID", w.self.shardId),
    ("d", JsVal.obj [("event", event),
      ("origin", JsVal.str ("worker-" ++ toString d.pid ++ "\n                -" ++
        d.toStr w.self.shardId)),
      ("shardID", w.self.shardId), ("data", msg),
      ("sendedAt", JsVal.num (Rat.floor w.now))])]

/-- `emitRemote(event, msg)`. -/
def emitRemote (d : Deps) (event msg : JsVal) (w : World) : Outcome :=
  match wsSend (d.jsonStringify (emitRemoteEnvelope d event msg w)) w with
  | Except.ok w => ⟨w, none⟩
  | Except.error e => ⟨w, some e⟩

/-! ## Event loop -/

/-- Run the callback of a timer. -/
def runAction (d : Deps) (a : TimerAction) (w : World) : World :=
  match a with
  | TimerAction.heartbeatTick beat => heartbeatTick d beat w
  | TimerAction.ackTimeout => ackTimeout w
  | TimerAction.reconnectTimer => reconnectTimer w

/-- The timer with handle `h` fires, if it is armed: the clock moves to its
due time when that is ahead, a timeout is disarmed, an interval is re-armed
one delay later, and the callback runs. -/
def fire (d : Deps) (h : Nat) (w : World) : World :=
  match w.timers.find? (fun t => t.id == h) with
  | none => w
  | some t =>
    let now := match t.due with
      | some x => max w.now x
      | none => w.now
    let timers :=
      if t.repeating then
        w.timers.map (fun u => if u.id == h then
          { u with due := u.delay.map (fun x => now + x) } else u)
      else w.timers.filter (fun u => u.id != h)
    runAction d t.action { w with now := now, timers := timers }

/-- Whether timer `a` is due strictly before timer `b`. -/
def dueBefore (a b : Timer) : Bool :=
  match a.due, b.due with
  | some x, some y => decide (x < y)
  | some _, none => true
  | none, _ => false

/-- The armed timer that is due first (the earliest armed among equals);
timers without a numeric due time are not scheduled. -/
def nextTimer : List Timer → Option Timer
  | [] => none
  | t :: ts =>
    match nextTimer ts with
    | none => if t.due.isSome then some t else none
    | some b => if dueBefore b t then some b else
        if t.due.isSome then some t else some b

/-- Let time pass until the next timer is due, and fire it. -/
def fireNext (d : Deps) (w : World) : World :=
  match nextTimer w.timers with
  | none => w
  | some t => fire d t.id w

/-- What can happen to a worker: the four socket events its listeners are
registered for (a `close` carries the draw of `Math.random()` its handler
makes), a timer firing, and the transport starting or ceasing to accept
writes. -/
inductive Event where
  | opened : Event
  | message (msg : String) : Event
  | error (err : JsVal) : Event
  | close (code number : String) (random : ℚ) : Event
  | fire (handle : Nat) : Event
  | transport (writable : Bool) : Event

/-- Dispatch one event to its listener. -/
def step (d : Deps) (ev : Event) (w : World) : Outcome :=
  match ev with
  | Event.opened =>
    ⟨onConnection { w with self := { w.self with connectionAttempts := 1 } }, none⟩
  | Event.message msg => onMessage d msg w
  | Event.error err => ⟨onError err w, none⟩
  | Event.close code number random => ⟨onDisconnect code number random w, none⟩
  | Event.fire h => ⟨fire d h w, none⟩
  | Event.transport b => ⟨{ w with writable := b }, none⟩

/-- Run a sequence of events; an exception a listener throws is not caught
by the worker, the world it left is where the next event starts. -/
def run (d : Deps) (evs : List Event) (w : World) : World :=
  evs.foldl (fun w ev => (step d ev w).world) w

/-! ## A concrete instance of the library code

Used to evaluate the methods on concrete frames. -/

/-- Skip JSON white space. -/
def skipWs : List Char → List Char
  | [] => []
  | c :: cs => if c = ' ' ∨ c = Char.ofNat 10 ∨ c = Char.ofNat 13 ∨ c = Char.ofNat 9
      then skipWs cs else c :: cs

/-- Read the characters of a string literal up to its closing quote
(escape sequences are not supported). -/
def parseChars (acc : List Char) : List Char → Option (String × List Char)
  | [] => none
  | c :: cs =>
    if c = Char.ofNat 34 then some (String.mk acc.reverse, cs)
    else if c = Char.ofNat 92 then none
    else parseChars (c :: acc) cs

/-- Read a run of decimal digits. -/
def parseDigits (acc : Nat) (seen : Bool) : List Char → Option (Nat × List Char)
  | [] => if seen then some (acc, []) else none
  | c :: cs =>
    if c.isDigit then parseDigits (acc * 10 + (c.toNat - 48)) true cs
    else if seen then some (acc, c :: cs) else none

/-- Strip a literal word from the front of the input. -/
def stripWord (word : List Char) (cs : List Char) : Option (List Char) :=
  if word.isPrefixOf cs then some (cs.drop word.length) else none

mutual
/-- Parse one JSON value. -/
def parseValue : Nat → List Char → Option (JsVal × List Char)
  | 0, _ => none
  | fuel + 1, cs =>
    match skipWs cs with
    | [] => none
    | c :: rest =>
      if c = 'n' then (stripWord "ull".toList rest).map (fun r => (JsVal.null, r))
      else if c = 't' then (stripWord "rue".toList rest).map (fun r => (JsVal.bool true, r))
      else if c = 'f' then (stripWord "alse".toList rest).map (fun r => (JsVal.bool false, r))
      else if c = Char.ofNat 34 then
        (parseChars [] rest).map (fun r => (JsVal.str r.1, r.2))
      else if c = '-' then
        (parseDigits 0 false rest).map (fun r => (JsVal.num (-(r.1 : Int)), r.2))
      else if c.isDigit then
        (parseDigits 0 false (c :: rest)).map (fun r => (JsVal.num (r.1 : Int), r.2))
      else if c = '[' then
        match skipWs rest with
        | ']' :: rest => some (JsVal.arr [], rest)
        | _ => (parseElems fuel rest).map (fun r => (JsVal.arr r.1, r.2))
      else if c = '{' then
        match skipWs rest with
        | '}' :: rest => some (JsVal.obj [], rest)
        | _ => (parseMembers fuel rest).map (fun r => (JsVal.obj r.1, r.2))
      else none
/-- Parse the elements of a non-empty array, up to and including `]`. -/
def parseElems : Nat → List Char → Option (List JsVal × List Char)
  | 0, _ => none
  | fuel + 1, cs =>
    match parseValue fuel cs with
    | none => none
    | some (v, rest) =>
      match skipWs rest with
      | ']' :: rest => some ([v], rest)
      | ',' :: rest => (parseElems fuel rest).map (fun r => (v :: r.1, r.2))
      | _ => none
/-- Parse the members of a non-empty object, up to and including `}`. -/
def parseMembers : Nat → List Char → Option (List (String × JsVal) × List Char)
  | 0, _ => none
  | fuel + 1, cs =>
    match skipWs cs with
    | c :: rest =>
      if c = Char.ofNat 34 then
        match parseChars [] rest with
        | none => none
        | some (k, rest) =>
          match skipWs rest with
          | ':' :: rest =>
            match parseValue fuel rest with
            | none => none
            | some (v, rest) =>
              match skipWs rest with
              | '}' :: rest => some ([(k, v)], rest)
              | ',' :: rest => (parseMembers fuel rest).map (fun r => ((k, v) :: r.1, r.2))
              | _ => none
          | _ => none
      else none
    | [] => none
end

/-- `JSON.parse` on the fragment of JSON without escape sequences, fractions
and exponents; any other text is a `SyntaxError`.  (When a key is repeated
the first occurrence is kept; the frames used below repeat none.) -/
def parseJson (text : String) : Except JsError JsVal :=
  match parseValue (text.length + 1) text.toList with
  | some (v, rest) =>
    if skipWs rest = [] then Except.ok v
    else Except.error ⟨"SyntaxError", "Unexpected token in JSON"⟩
  | none => Except.error ⟨"SyntaxError", "Unexpected token in JSON"⟩

/-- Modelled from the spec: the opcode table of `./structures/types`, which
is not among the sources; each opcode of the spec's closed set (identify,
ready, message, heartbeat, unauthorized) is taken to be its own name. -/
def specOpCodes : OpCodes :=
  { identify := JsVal.str "identify", ready := JsVal.str "ready",
    message := JsVal.str "message", hearbeat := JsVal.str "heartbeat",
    unauthorized := JsVal.str "unauthorized" }

mutual
/-- `JSON.stringify` on the values of the fragment (strings are quoted without
escaping, a property whose value is `undefined` is left out, an `Error` has no
enumerable property). -/
def stringify : JsVal → String
  | JsVal.undefined => "undefined"
  | JsVal.null => "null"
  | JsVal.bool b => toString b
  | JsVal.num n => toString n
  | JsVal.str s => String.mk [Char.ofNat 34] ++ s ++ String.mk [Char.ofNat 34]
  | JsVal.arr xs => "[" ++ ",".intercalate (stringifyElems xs) ++ "]"
  | JsVal.obj kvs => String.mk [Char.ofNat 123] ++ ",".intercalate (stringifyMembers kvs) ++
      String.mk [Char.ofNat 125]
  | JsVal.error _ => String.mk [Char.ofNat 123, Char.ofNat 125]
/-- The elements of an array, each as JSON text. -/
def stringifyElems : List JsVal → List String
  | [] => []
  | JsVal.undefined :: rest => "null" :: stringifyElems rest
  | v :: rest => stringify v :: stringifyElems rest
/-- The members of an object, each as JSON text. -/
def stringifyMembers : List (String × JsVal) → List String
  | [] => []
  | (_, JsVal.undefined) :: rest => stringifyMembers rest
  | (k, v) :: rest =>
    (String.mk [Char.ofNat 34] ++ k ++ String.mk [Char.ofNat 34] ++ ":" ++ stringify v) ::
      stringifyMembers rest
end

mutual
/-- The string a template literal makes of a value. -/
def templateText : JsVal → String
  | JsVal.undefined => "undefined"
  | JsVal.null => "null"
  | JsVal.bool b => toString b
  | JsVal.num n => toString n
  | JsVal.str s => s
  | JsVal.arr xs => ",".intercalate (templateElems xs)
  | JsVal.obj _ => "[object Object]"
  | JsVal.error e => e.name ++ ": " ++ e.message
/-- The elements of an array as `Array.prototype.join` renders them. -/
def templateElems : List JsVal → List String
  | [] => []
  | JsVal.undefined :: rest => "" :: templateElems rest
  | JsVal.null :: rest => "" :: templateElems rest
  | v :: rest => templateText v :: templateElems rest
end

/-- The instance of the library code used for concrete runs. -/
def sampleDeps : Deps :=
  { OPCODE := specOpCodes, jsonParse := parseJson, jsonStringify := stringify,
    toStr := templateText, pid := 4242 }

/-- The world right after `new Worker("secret", "ws://hub")` returned, on a
transport that accepts writes. -/
def sampleWorld : World := connect (Worker.fields (JsVal.str "secret") (JsVal.str "ws://hub") true)

/-- The frame `{"op":"ready","d":{"heartbeat":10000,"sid":0,"sc":2}}`. -/
def readyFrame : String :=
  "\x7b\"op\":\"ready\",\"d\":\x7b\"heartbeat\":10000,\"sid\":0,\"sc\":2\x7d\x7d"

/-- The frame `{"op":"identify"}`. -/
def identifyFrame : String := "\x7b\"op\":\"identify\"\x7d"

/-! ## Observations on a world -/

/-- The armed heartbeat intervals (timers running the tick of `setupHeartbeat`). -/
def heartbeatIntervals (w : World) : List Timer :=
  w.timers.filter (fun t => match t.action with
    | TimerAction.heartbeatTick _ => true
    | _ => false)

/-- The pending heartbeat ack timeouts. -/
def ackTimeouts (w : World) : List Timer :=
  w.timers.filter (fun t => match t.action with
    | TimerAction.ackTimeout => true
    | _ => false)

/-- How many times the error of an unacknowledged heartbeat was emitted. -/
def heartbeatErrors (w : World) : Nat :=
  (w.emitted.filter (fun p => strictEq p.1 (JsVal.str "error") &&
    strictEq p.2 (JsVal.str "The master did not respond to the heartbeat!"))).length

/-! ## Frames and runs used by the statements below -/

/-- The run of C3 up to the first forced close: `ready` with heartbeat 10000,
then the next four timers in due order (ticks at 7000, 14000 and 21000 ms,
the first ack timeout at 22000 ms). -/
def silentUntilTimeout : World :=
  (fireNext sampleDeps)^[4]
    (run sampleDeps [Event.opened, Event.message readyFrame] sampleWorld)

/-- The run of C3 continued: the transport delivers the close event of the
forced close, then the next two timers fire in due order (the reconnect timer,
then the second ack timeout at 29000 ms). -/
def silentAfterClose : World :=
  (fireNext sampleDeps)^[2]
    (onDisconnect "1006" "Trying to reconnect!" (1 / 2) silentUntilTimeout)

/-- The frame `{"op":"ready","d":{"heartbeat":10000,"sid":1,"sc":2}}`. -/
def readyFrameShardOne : String :=
  "\x7b\"op\":\"ready\",\"d\":\x7b\"heartbeat\":10000,\"sid\":1,\"sc\":2\x7d\x7d"

/-- Consecutive failed connection attempts: each entry is a close event (its
code, its number, the random draw of its backoff) arriving on a socket that
never opened, after which the reconnect timer it scheduled fires. -/
def failedAttempts (d : Deps) : List (String × String × ℚ) → World → World
  | [], w => w
  | (code, number, random) :: rest, w =>
    failedAttempts d rest (fireNext d (onDisconnect code number random w))

/-- The frame `{"op":"ready"}`: a ready envelope without `d`. -/
def readyFrameNoPayload : String := "\x7b\"op\":\"ready\"\x7d"

/-- The frame `{"op":"message"}`: a message envelope without `d`. -/
def messageFrameNoPayload : String := "\x7b\"op\":\"message\"\x7d"

/-- The frames C9 speaks of: whether a frame fails to parse, or parses to a
value whose `op` can be read and is none of the five opcodes. -/
def unrecognised (d : Deps) (msg : String) : Bool :=
  match d.jsonParse msg with
  | Except.error _ => true
  | Except.ok v =>
    match getProp v "op" with
    | Except.error _ => false
    | Except.ok op =>
      !(strictEq op d.OPCODE.identify || strictEq op d.OPCODE.ready ||
        strictEq op d.OPCODE.message || strictEq op d.OPCODE.hearbeat ||
        strictEq op d.OPCODE.unauthorized)

/-- The frame `{"op":"resume"}`. -/
def unknownOpFrame : String := "\x7b\"op\":\"resume\"\x7d"

/-- The frame `{"op":"message","d":{"event":"ping","data":42}}`. -/
def pingFrame : String :=
  "\x7b\"op\":\"message\",\"d\":\x7b\"event\":\"ping\",\"data\":42\x7d\x7d"

/-- The frame `{"op":"heartbeat"}`. -/
def heartbeatFrame : String := "\x7b\"op\":\"heartbeat\"\x7d"

/-- The frame `{"op":"unauthorized"}`. -/
def unauthorizedFrame : String := "\x7b\"op\":\"unauthorized\"\x7d"

/-- The frame `{"op":"ready","d":{"heartbeat":10000,"sid":1,"sc":2,"reshard":true}}`. -/
def readyFrameReshard : String :=
  "\x7b\"op\":\"ready\",\"d\":\x7b\"heartbeat\":10000,\"sid\":1,\"sc\":2," ++
    "\"reshard\":true\x7d\x7d"

/-- The value of the local `maxInterval` of `generateInterval(k)` when it
returns (lines 92 to 96). -/
def maxInterval (k : Nat) : ℚ :=
  let maxInterval : ℚ := ((2 : ℚ) ^ k - 1) * 1000
  if maxInterval > 30 * 1000 then 30 * 1000 else maxInterval

/-- Dropped connections: each entry is a close event (its code, its number,
the random draw of its backoff), after which the reconnect timer that this
close scheduled fires; no open in between. -/
def droppedConnections (d : Deps) : List (String × String × ℚ) → World → World
  | [], w => w
  | (code, number, random) :: rest, w =>
    droppedConnections d rest (fire d w.nextHandle (onDisconnect code number random w))

/-- A constructor argument of type string: absent (`undefined`) or a string. -/
def stringArg : Option String → JsVal
  | none => JsVal.undefined
  | some s => JsVal.str s

/-- The pending reconnect timers. -/
def reconnectTimers (w : World) : List Timer :=
  w.timers.filter (fun t => match t.action with
    | TimerAction.reconnectTimer => true
    | _ => false)

/-- Timer handles are given out in increasing order: whether every armed
timer has a handle below the next one to be given out. -/
def handlesBelow (w : World) : Bool :=
  w.timers.all (fun t => decide (t.id < w.nextHandle))

/-- The run of C17 up to the acknowledgement: `ready` with heartbeat 10000,
then the ticks at 7000 and 14000 ms, the server having sent nothing yet. -/
def twoTicksUnacked : World :=
  (fireNext sampleDeps)^[2]
    (run sampleDeps [Event.opened, Event.message readyFrame] sampleWorld)

/-- The run of C17 continued: the server's `heartbeat` envelope arrives at
14000 ms, the interval ticks again at 21000 ms, and the server answers that
tick with a second `heartbeat` envelope. -/
def ackedTwice : World :=
  (onMessage sampleDeps heartbeatFrame
    (fireNext sampleDeps (onMessage sampleDeps heartbeatFrame twoTicksUnacked).world)).world

/-! ## Heartbeat timers across a close (C1, C2, C3) -/

/-- C1, the code at the failing input.  A worker is constructed, its socket
opens, `ready` arrives with heartbeat 10000, the interval ticks once at 7000 ms
(arming ack timeout 1, due at 22000 ms) and the socket closes.  `onDisconnect`
cancels the interval but the ack timeout stays armed; once the reconnect timer
has created socket 1, the stale timeout fires at 22000 ms, emits the
heartbeat error and calls `close` on socket 1. -/
theorem onDisconnect_keeps_ack_timeout :
    (heartbeatIntervals (run sampleDeps [Event.opened, Event.message readyFrame,
        Event.fire 0, Event.close "1006" "" (1 / 2)] sampleWorld)).length = 0 ∧
    (ackTimeouts (run sampleDeps [Event.opened, Event.message readyFrame,
        Event.fire 0, Event.close "1006" "" (1 / 2)] sampleWorld)).map
      (fun t => (t.id, t.due)) = [(1, some 22000)] ∧
    heartbeatErrors (fireNext sampleDeps (fireNext sampleDeps
      (run sampleDeps [Event.opened, Event.message readyFrame,
        Event.fire 0, Event.close "1006" "" (1 / 2)] sampleWorld))) = 1 ∧
    (fireNext sampleDeps (fireNext sampleDeps
      (run sampleDeps [Event.opened, Event.message readyFrame,
        Event.fire 0, Event.close "1006" "" (1 / 2)] sampleWorld))).closeCalls = [1] ∧
    (fireNext sampleDeps (fireNext sampleDeps
      (run sampleDeps [Event.opened, Event.message readyFrame,
        Event.fire 0, Event.close "1006" "" (1 / 2)] sampleWorld))).now = 22000 := by
  decide!

/-- C2, the code at the failing inputs, in states reached from construction.
After `ready` (heartbeat 10000) the server stays silent: the ticks at 7000 ms and 14000 ms each arm an ack timeout
and none is cancelled, so two are pending at 14000 ms (due at 22000 and
29000 ms) while `hearbeatTimeout` holds only the later handle.  And a second
`ready` envelope arms a second interval while the first keeps running. -/
theorem two_timers_of_a_kind :
    Worker.new (JsVal.str "secret") (JsVal.str "ws://hub") true = Except.ok sampleWorld ∧
    (ackTimeouts (fireNext sampleDeps (fireNext sampleDeps
      (run sampleDeps [Event.opened, Event.message readyFrame] sampleWorld)))).map
      (fun t => (t.id, t.due)) = [(1, some 22000), (2, some 29000)] ∧
    (fireNext sampleDeps (fireNext sampleDeps
      (run sampleDeps [Event.opened, Event.message readyFrame] sampleWorld))).now = 14000 ∧
    (fireNext sampleDeps (fireNext sampleDeps
      (run sampleDeps [Event.opened, Event.message readyFrame]
        sampleWorld))).self.hearbeatTimeout = some 2 ∧
    (heartbeatIntervals (run sampleDeps [Event.opened, Event.message readyFrame,
      Event.message readyFrame] sampleWorld)).map (fun t => t.id) = [0, 1] ∧
    (run sampleDeps [Event.opened, Event.message readyFrame,
      Event.message readyFrame] sampleWorld).self.hearbeatInterval = some 1 :=
  ⟨rfl, by decide!⟩

/-- C3, the code at the failing input b = 10000.  With a silent server the
first ack timeout fires at 22000 ms: one error, one `close` on socket 0.  The
close event cancels the interval only, so the ack timeouts armed by the ticks
at 14000 and 21000 ms are still pending; the one due at 29000 ms emits a
second error and calls `close` on socket 1, the one due at 36000 ms a third. -/
theorem silent_server_errors_repeat :
    heartbeatErrors silentUntilTimeout = 1 ∧ silentUntilTimeout.closeCalls = [0] ∧
    silentUntilTimeout.now = 22000 ∧
    (ackTimeouts silentUntilTimeout).map (fun t => (t.id, t.due)) =
      [(2, some 29000), (3, some 36000)] ∧
    heartbeatErrors silentAfterClose = 2 ∧ silentAfterClose.closeCalls = [0, 1] ∧
    silentAfterClose.now = 29000 ∧
    heartbeatErrors (fireNext sampleDeps silentAfterClose) = 3 ∧
    (fireNext sampleDeps silentAfterClose).closeCalls = [0, 1, 1] := by
  decide!

/-! ## The identify reply (C4) -/

/-- C4, the code at the failing input.  After a `ready` that assigns shard 0
of 2, the reply to `identify` is `{"op":"identify","shardToken":"secret"}`,
without `d`, although the shard identity is known; after a `ready` that
assigns shard 1 of 2 the reply carries `d = {sc: 2, sid: 1}`. -/
theorem identify_reply_omits_shard_zero :
    toNumber (run sampleDeps [Event.opened, Event.message readyFrame]
      sampleWorld).self.shardId = some 0 ∧
    toNumber (run sampleDeps [Event.opened, Event.message readyFrame]
      sampleWorld).self.shardCount = some 2 ∧
    (run sampleDeps [Event.opened, Event.message readyFrame, Event.message identifyFrame]
      sampleWorld).sent = [(0, "\x7b\"op\":\"identify\",\"shardToken\":\"secret\"\x7d")] ∧
    (run sampleDeps [Event.opened, Event.message readyFrameShardOne,
      Event.message identifyFrame] sampleWorld).sent =
      [(0, "\x7b\"op\":\"identify\",\"shardToken\":\"secret\"," ++
        "\"d\":\x7b\"sc\":2,\"sid\":1\x7d\x7d")] := by
  decide!

/-! ## The retry counter of a client that never connected (C5) -/

theorem fireNext_onDisconnect (d : Deps) (code number : String) (random : ℚ) (w : World)
    (h : w.timers = []) :
    (fireNext d (onDisconnect code number random w)).timers = [] ∧
    (fireNext d (onDisconnect code number random w)).self.connectionAttempts =
      w.self.connectionAttempts + 1 := by
  simp [fireNext, onDisconnect, setTimeout, setTimer, clearInterval, clearTimer, emit, h,
    nextTimer, fire, runAction, reconnectTimer, connect]
  cases w.self.hearbeatInterval <;> simp [nextTimer, h, runAction, reconnectTimer, connect]

theorem failedAttempts_counter (d : Deps) (closes : List (String × String × ℚ)) :
    ∀ w : World, w.timers = [] →
      (failedAttempts d closes w).self.connectionAttempts =
        w.self.connectionAttempts + closes.length := by
  induction closes with
  | nil => intro w _; simp [failedAttempts]
  | cons c rest ih =>
    intro w h
    obtain ⟨code, number, random⟩ := c
    have hs := fireNext_onDisconnect d code number random w h
    simp only [failedAttempts, List.length_cons]
    rw [ih _ hs.1, hs.2]
    omega

/-- C5 as stated fails: after one failed attempt of a fresh client the retry
counter is 1, not 1 + 1. -/
theorem fresh_counter_after_one_failure :
    (failedAttempts sampleDeps [("1006", "", 1 / 2)] sampleWorld).self.connectionAttempts = 1 ∧
    (failedAttempts sampleDeps [("1006", "", 1 / 2)] sampleWorld).self.connectionAttempts
      ≠ 1 + 1 := by
  decide!

/-- C5 as amended: on a freshly constructed client, after n consecutive
failed connection attempts (each close followed by its reconnect timer
firing, no open in between) the retry counter `connectionAttempts` equals n. -/
theorem fresh_counter_counts_failures (d : Deps) (shardToken host : JsVal) (writable : Bool)
    (w : World) (closes : List (String × String × ℚ))
    (h : Worker.new shardToken host writable = Except.ok w) :
    (failedAttempts d closes w).self.connectionAttempts = closes.length := by
  unfold Worker.new at h
  split at h
  · cases h
  · split at h
    · cases h
    · cases h
      rw [failedAttempts_counter d closes _ (by simp [connect, Worker.fields])]
      simp [connect, Worker.fields]

theorem fresh_counter_counts_failures_witness :
    Worker.new (JsVal.str "secret") (JsVal.str "ws://hub") true = Except.ok sampleWorld ∧
    (failedAttempts sampleDeps [("1006", "", 1 / 2), ("1006", "", 1 / 3)]
      sampleWorld).self.connectionAttempts = 2 :=
  ⟨rfl, fresh_counter_counts_failures sampleDeps (JsVal.str "secret") (JsVal.str "ws://hub")
    true sampleWorld [("1006", "", 1 / 2), ("1006", "", 1 / 3)] rfl⟩

/-! ## Backoff (C6) -/

/-- C6: for every attempt count k ≥ 1 and every draw 0 ≤ r < 1,
`generateInterval(k)` is r times the cap min(2^k - 1, 30) * 1000, and lies in
[0, cap). -/
theorem generateInterval_full_jitter (k : Nat) (r : ℚ) (hk : 1 ≤ k) (h0 : 0 ≤ r) (h1 : r < 1) :
    generateInterval k r = r * (min ((2 : ℚ) ^ k - 1) 30 * 1000) ∧
    0 ≤ generateInterval k r ∧
    generateInterval k r < min ((2 : ℚ) ^ k - 1) 30 * 1000 := by
  have h2 : (2 : ℚ) ^ 1 ≤ (2 : ℚ) ^ k := pow_le_pow_right₀ (by norm_num) hk
  have hcap : (0 : ℚ) < min ((2 : ℚ) ^ k - 1) 30 * 1000 := by
    have : (0 : ℚ) < min ((2 : ℚ) ^ k - 1) 30 := lt_min (by linarith) (by norm_num)
    positivity
  have heq : generateInterval k r = r * (min ((2 : ℚ) ^ k - 1) 30 * 1000) := by
    unfold generateInterval
    by_cases hc : ((2 : ℚ) ^ k - 1) * 1000 > 30 * 1000
    · have : (30 : ℚ) ≤ (2 : ℚ) ^ k - 1 := by linarith
      simp only [hc, if_true, min_eq_right this]
    · have : (2 : ℚ) ^ k - 1 ≤ 30 := by linarith
      simp only [hc, if_false, min_eq_left this]
  refine ⟨heq, ?_, ?_⟩
  · rw [heq]; exact mul_nonneg h0 hcap.le
  · rw [heq]; nlinarith

theorem generateInterval_full_jitter_witness :
    (1 ≤ 3 ∧ (0 : ℚ) ≤ 1 / 2 ∧ (1 / 2 : ℚ) < 1) ∧ generateInterval 3 (1 / 2) = 3500 ∧
    generateInterval 3 (1 / 2) = 1 / 2 * (min ((2 : ℚ) ^ 3 - 1) 30 * 1000) ∧
    0 ≤ generateInterval 3 (1 / 2) ∧
    generateInterval 3 (1 / 2) < min ((2 : ℚ) ^ 3 - 1) 30 * 1000 :=
  ⟨by norm_num, by decide!,
    generateInterval_full_jitter 3 (1 / 2) (by decide) (by norm_num) (by norm_num)⟩

/-! ## Exceptions leaving `onMessage` and `send` (C7, C8) -/

/-- C7, the code at the failing inputs.  On the frame `null`, which parses,
the read of `msg.op` throws a `TypeError` past the `try` block: `onMessage`
raises it into its caller, in every state, and emits nothing.  The same
happens on `{"op":"ready"}` and `{"op":"message"}` at the read of a property
of the missing `d`.  A frame that does not parse is caught and reported. -/
theorem onMessage_throws_on_null (w : World) :
    onMessage sampleDeps "null" w = ⟨w, some ⟨"TypeError", "Cannot read property of null"⟩⟩ ∧
    onMessage sampleDeps readyFrameNoPayload w =
      ⟨w, some ⟨"TypeError", "Cannot read property of undefined"⟩⟩ ∧
    onMessage sampleDeps messageFrameNoPayload w =
      ⟨w, some ⟨"TypeError", "Cannot read property of undefined"⟩⟩ ∧
    onMessage sampleDeps "nul" w =
      ⟨emit (JsVal.str "error")
        (JsVal.error ⟨"SyntaxError", "Unexpected token in JSON"⟩) w, none⟩ :=
  ⟨rfl, rfl, rfl, rfl⟩

/-- C8, the code at the failing input.  When the transport refuses the write,
`send` (and `emitRemote`) raise the error of `ws.send` into the caller:
nothing is emitted and `close` is not called, the world is as before.  The
heartbeat tick, in the same world, catches the error, emits it and calls
`close`. -/
theorem send_throws_on_failed_write (d : Deps) (event msg beat : JsVal) (w : World) :
    send d event msg { w with writable := false } =
      ⟨{ w with writable := false }, some ⟨"Error", "not opened"⟩⟩ ∧
    emitRemote d event msg { w with writable := false } =
      ⟨{ w with writable := false }, some ⟨"Error", "not opened"⟩⟩ ∧
    heartbeatTick d beat { w with writable := false } =
      { w with
        writable := false
        emitted := w.emitted ++ [(JsVal.str "error", JsVal.error ⟨"Error", "not opened"⟩)]
        closeCalls := w.closeCalls ++ [w.self.ws] } :=
  ⟨rfl, rfl, rfl⟩

/-! ## Dropped frames (C9) -/

/-- C9: in every state, on a frame that fails to parse or whose op is none of
identify, ready, message, heartbeat, unauthorized, `onMessage` returns
normally and the world it leaves differs from the one before only by one more
emitted `error` event: nothing is sent, no timer is armed or cancelled, no
field of the worker changes. -/
theorem onMessage_drops_unrecognised (d : Deps) (msg : String) (w : World)
    (h : unrecognised d msg = true) :
    ∃ payload : JsVal, onMessage d msg w =
      ⟨{ w with emitted := w.emitted ++ [(JsVal.str "error", payload)] }, none⟩ := by
  unfold unrecognised at h
  unfold onMessage
  cases hp : d.jsonParse msg with
  | error e => exact ⟨JsVal.error e, rfl⟩
  | ok v =>
    simp only [hp] at h
    cases hg : getProp v "op" with
    | error e => simp [hg] at h
    | ok op =>
      simp only [hg, Bool.not_eq_true', Bool.or_eq_false_iff] at h
      obtain ⟨⟨⟨⟨h1, h2⟩, h3⟩, h4⟩, h5⟩ := h
      exact ⟨JsVal.str ("Unkown Message " ++ d.jsonStringify v),
        by simp [hg, h1, h2, h3, h4, h5, emit]⟩

theorem onMessage_drops_unrecognised_witness :
    (unrecognised sampleDeps "nul" = true ∧ unrecognised sampleDeps unknownOpFrame = true) ∧
    (∃ payload : JsVal, onMessage sampleDeps "nul" sampleWorld =
      ⟨{ sampleWorld with emitted := sampleWorld.emitted ++ [(JsVal.str "error", payload)] },
        none⟩) ∧
    (∃ payload : JsVal, onMessage sampleDeps unknownOpFrame sampleWorld =
      ⟨{ sampleWorld with emitted := sampleWorld.emitted ++ [(JsVal.str "error", payload)] },
        none⟩) :=
  ⟨by decide, onMessage_drops_unrecognised sampleDeps "nul" sampleWorld (by decide),
    onMessage_drops_unrecognised sampleDeps unknownOpFrame sampleWorld (by decide)⟩

/-! ## The heartbeat cycle (C10) -/

theorem onReady_timers (v hb : JsVal) (w : World)
    (h : getD v "heartbeat" = Except.ok hb) :
    (onReady v w).world.timers = (setupHeartbeat hb w).timers ∧
    (onReady v w).world.now = w.now ∧
    (onReady v w).world.self.hearbeatInterval = some w.nextHandle := by
  unfold onReady
  simp only [h]
  repeat' split
  all_goals simp [setupHeartbeat, setInterval, setTimer, emit]

theorem onMessage_ready (d : Deps) (msg : String) (v op : JsVal) (w : World)
    (hparse : d.jsonParse msg = Except.ok v) (hop : getProp v "op" = Except.ok op)
    (hid : strictEq op d.OPCODE.identify = false)
    (hready : strictEq op d.OPCODE.ready = true) :
    onMessage d msg w = onReady v w := by
  unfold onMessage
  simp [hparse, hop, hid, hready]

theorem find_fresh (ts : List Timer) (t : Timer) (h : ∀ u ∈ ts, u.id ≠ t.id) :
    (ts ++ [t]).find? (fun u => u.id == t.id) = some t := by
  induction ts with
  | nil => simp
  | cons a rest ih =>
    have ha : a.id ≠ t.id := h a (List.mem_cons_self a rest)
    have hr : ∀ u ∈ rest, u.id ≠ t.id := fun u hu => h u (List.mem_cons_of_mem a hu)
    simp only [List.cons_append, List.find?_cons]
    have : (a.id == t.id) = false := by simpa using ha
    rw [this]
    exact ih hr

theorem map_fresh (ts : List Timer) (h : Nat) (f : Timer → Timer)
    (hf : ∀ u ∈ ts, u.id ≠ h) :
    ts.map (fun u => if u.id == h then f u else u) = ts := by
  induction ts with
  | nil => rfl
  | cons a rest ih =>
    have ha : (a.id == h) = false := by simpa using hf a (List.mem_cons_self a rest)
    simp only [List.map_cons, ha]
    rw [ih (fun u hu => hf u (List.mem_cons_of_mem a hu))]
    simp

/-- C10: for every heartbeat interval b > 3000, handling a `ready` envelope
with heartbeat = b arms a repeating timer of period b - 3000 ms and stores its
handle; when it fires (first at b - 3000 ms after the envelope) it stays armed,
due one period later, and runs the tick.  A tick on a transport that accepts
the write sends the envelope {op: heartbeat, shardID: shardId, shardToken:
token} and arms a one-shot ack timeout of b + 5000 ms, storing its handle; a
tick whose write fails emits one error and closes the socket, arming nothing. -/
theorem ready_starts_heartbeat_cycle (d : Deps) (msg : String) (v op : JsVal) (b : Int)
    (w : World) (hb : 3000 < b)
    (hparse : d.jsonParse msg = Except.ok v) (hop : getProp v "op" = Except.ok op)
    (hid : strictEq op d.OPCODE.identify = false)
    (hready : strictEq op d.OPCODE.ready = true)
    (hbeat : getD v "heartbeat" = Except.ok (JsVal.num b))
    (hfresh : ∀ t ∈ w.timers, t.id ≠ w.nextHandle) :
    ((onMessage d msg w).world.timers = w.timers ++
        [{ id := w.nextHandle, repeating := true, delay := some ((b - 3000 : Int) : ℚ),
           due := some (w.now + ((b - 3000 : Int) : ℚ)),
           action := TimerAction.heartbeatTick (JsVal.num b) }] ∧
      (onMessage d msg w).world.self.hearbeatInterval = some w.nextHandle) ∧
    fire d w.nextHandle (onMessage d msg w).world =
      heartbeatTick d (JsVal.num b)
        { (onMessage d msg w).world with
          now := w.now + ((b - 3000 : Int) : ℚ)
          timers := w.timers ++
            [{ id := w.nextHandle, repeating := true, delay := some ((b - 3000 : Int) : ℚ),
               due := some (w.now + ((b - 3000 : Int) : ℚ) + ((b - 3000 : Int) : ℚ)),
               action := TimerAction.heartbeatTick (JsVal.num b) }] } ∧
    (∀ u : World, u.writable = true →
      heartbeatTick d (JsVal.num b) u =
        { u with
          sent := u.sent ++ [(u.self.ws, d.jsonStringify (JsVal.obj
            [("op", d.OPCODE.hearbeat), ("shardID", u.self.shardId),
             ("shardToken", u.self.token)]))]
          nextHandle := u.nextHandle + 1
          timers := u.timers ++
            [{ id := u.nextHandle, repeating := false, delay := some ((b + 5000 : Int) : ℚ),
               due := some (u.now + ((b + 5000 : Int) : ℚ)),
               action := TimerAction.ackTimeout }]
          self := { u.self with hearbeatTimeout := some u.nextHandle } }) ∧
    (∀ u : World, u.writable = false →
      heartbeatTick d (JsVal.num b) u =
        { u with
          emitted := u.emitted ++ [(JsVal.str "error", JsVal.error ⟨"Error", "not opened"⟩)]
          closeCalls := u.closeCalls ++ [u.self.ws] }) := by
  have hA := onReady_timers v (JsVal.num b) w hbeat
  rw [← onMessage_ready d msg v op w hparse hop hid hready] at hA
  obtain ⟨ht, hn, hi⟩ := hA
  have ht2 : (onMessage d msg w).world.timers = w.timers ++
        [{ id := w.nextHandle, repeating := true, delay := some ((b - 3000 : Int) : ℚ),
           due := some (w.now + ((b - 3000 : Int) : ℚ)),
           action := TimerAction.heartbeatTick (JsVal.num b) }] := by
    rw [ht]; simp [setupHeartbeat, setInterval, setTimer, toNumber]
  have hpos : (0 : ℚ) < ((b - 3000 : Int) : ℚ) := by
    have : (0 : Int) < b - 3000 := by omega
    exact_mod_cast this
  refine ⟨⟨ht2, hi⟩, ?_, ?_, ?_⟩
  · unfold fire
    rw [ht2]
    have hfind := find_fresh w.timers
      { id := w.nextHandle, repeating := true, delay := some ((b - 3000 : Int) : ℚ),
        due := some (w.now + ((b - 3000 : Int) : ℚ)),
        action := TimerAction.heartbeatTick (JsVal.num b) } hfresh
    simp only at hfind
    rw [hfind]
    have hmax : max (onMessage d msg w).world.now (w.now + ((b - 3000 : Int) : ℚ)) =
        w.now + ((b - 3000 : Int) : ℚ) := by
      rw [hn]; exact max_eq_right (by linarith)
    simp only [hmax, if_true, runAction, List.map_append, List.map_cons, List.map_nil,
      beq_self_eq_true, Option.map_some']
    rw [map_fresh w.timers w.nextHandle _ hfresh]
  · intro u hu
    simp [heartbeatTick, wsSend, hu, heartbeatEnvelope, setTimeout, setTimer, toNumber]
  · intro u hu
    simp [heartbeatTick, wsSend, hu, reconnect, emit]

theorem ready_starts_heartbeat_cycle_witness :
    ((3000 : Int) < 10000 ∧
      sampleDeps.jsonParse readyFrame = Except.ok (JsVal.obj [("op", JsVal.str "ready"),
        ("d", JsVal.obj [("heartbeat", JsVal.num 10000), ("sid", JsVal.num 0),
          ("sc", JsVal.num 2)])]) ∧
      (∀ t ∈ sampleWorld.timers, t.id ≠ sampleWorld.nextHandle)) ∧
    ((onMessage sampleDeps readyFrame sampleWorld).world.timers = sampleWorld.timers ++
        [{ id := sampleWorld.nextHandle, repeating := true,
           delay := some ((10000 - 3000 : Int) : ℚ),
           due := some (sampleWorld.now + ((10000 - 3000 : Int) : ℚ)),
           action := TimerAction.heartbeatTick (JsVal.num 10000) }] ∧
      (onMessage sampleDeps readyFrame sampleWorld).world.self.hearbeatInterval =
        some sampleWorld.nextHandle) ∧
    (onMessage sampleDeps readyFrame sampleWorld).world.timers.map
        (fun t => (t.id, t.repeating, t.delay, t.due)) = [(0, true, some 7000, some 7000)] ∧
    (fire sampleDeps 0 (onMessage sampleDeps readyFrame sampleWorld).world).timers.map
        (fun t => (t.id, t.repeating, t.delay, t.due)) =
      [(0, true, some 7000, some 14000), (1, false, some 15000, some 22000)] ∧
    (fire sampleDeps 0 (onMessage sampleDeps readyFrame sampleWorld).world).sent =
      [(0, "\x7b\"op\":\"heartbeat\",\"shardID\":0,\"shardToken\":\"secret\"\x7d")] :=
  ⟨⟨by decide, rfl, by simp [sampleWorld, connect, Worker.fields]⟩,
    (ready_starts_heartbeat_cycle sampleDeps readyFrame
      (JsVal.obj [("op", JsVal.str "ready"),
        ("d", JsVal.obj [("heartbeat", JsVal.num 10000), ("sid", JsVal.num 0),
          ("sc", JsVal.num 2)])])
      (JsVal.str "ready") 10000 sampleWorld (by decide) rfl rfl rfl rfl rfl
      (by simp [sampleWorld, connect, Worker.fields])).1,
    by decide!, by decide!, by decide!⟩

/-! ## Application messages (C11, C19) -/

theorem onMessage_message (d : Deps) (msg : String) (v op e p : JsVal) (w : World)
    (hparse : d.jsonParse msg = Except.ok v) (hop : getProp v "op" = Except.ok op)
    (hid : strictEq op d.OPCODE.identify = false)
    (hready : strictEq op d.OPCODE.ready = false)
    (hmsg : strictEq op d.OPCODE.message = true)
    (he : getD v "event" = Except.ok e) (hp : getD v "data" = Except.ok p) :
    onMessage d msg w = ⟨{ w with emitted := w.emitted ++ [(e, p)] }, none⟩ := by
  unfold onMessage
  simp [hparse, hop, hid, hready, hmsg, he, hp, emit]

/-- C11: for every event name e and payload p, a `message` envelope carrying
event e and data p, received while the client is ready, returns normally and
changes the world only by one more emitted event, named e and carrying p:
nothing is sent, no timer changes, no field of the worker changes. -/
theorem message_dispatches_event (d : Deps) (msg : String) (v op e p : JsVal) (w : World)
    (hstate : w.self.ready = true)
    (hparse : d.jsonParse msg = Except.ok v) (hop : getProp v "op" = Except.ok op)
    (hid : strictEq op d.OPCODE.identify = false)
    (hready : strictEq op d.OPCODE.ready = false)
    (hmsg : strictEq op d.OPCODE.message = true)
    (he : getD v "event" = Except.ok e) (hp : getD v "data" = Except.ok p) :
    onMessage d msg w = ⟨{ w with emitted := w.emitted ++ [(e, p)] }, none⟩ ∧
    (onMessage d msg w).world.self.ready = true := by
  rw [onMessage_message d msg v op e p w hparse hop hid hready hmsg he hp]
  exact ⟨rfl, hstate⟩

theorem message_dispatches_event_witness :
    ((run sampleDeps [Event.opened, Event.message readyFrame] sampleWorld).self.ready = true ∧
      sampleDeps.jsonParse pingFrame = Except.ok (JsVal.obj [("op", JsVal.str "message"),
        ("d", JsVal.obj [("event", JsVal.str "ping"), ("data", JsVal.num 42)])])) ∧
    (onMessage sampleDeps pingFrame
        (run sampleDeps [Event.opened, Event.message readyFrame] sampleWorld) =
      ⟨{ run sampleDeps [Event.opened, Event.message readyFrame] sampleWorld with
          emitted := (run sampleDeps [Event.opened, Event.message readyFrame]
            sampleWorld).emitted ++ [(JsVal.str "ping", JsVal.num 42)] }, none⟩ ∧
      (onMessage sampleDeps pingFrame
        (run sampleDeps [Event.opened, Event.message readyFrame]
          sampleWorld)).world.self.ready = true) :=
  ⟨⟨rfl, rfl⟩,
    message_dispatches_event sampleDeps pingFrame
      (JsVal.obj [("op", JsVal.str "message"),
        ("d", JsVal.obj [("event", JsVal.str "ping"), ("data", JsVal.num 42)])])
      (JsVal.str "message") (JsVal.str "ping") (JsVal.num 42)
      (run sampleDeps [Event.opened, Event.message readyFrame] sampleWorld)
      rfl rfl rfl rfl rfl rfl rfl rfl⟩

/-- C19 as stated fails: a constructed client whose socket has opened but
which has received no `ready` (ready = false) emits the application event
`ping` with payload 42 on the frame
`{"op":"message","d":{"event":"ping","data":42}}`. -/
theorem message_before_ready_is_dispatched :
    (run sampleDeps [Event.opened] sampleWorld).self.ready = false ∧
    (run sampleDeps [Event.opened, Event.message pingFrame] sampleWorld).emitted.map
      (fun x => (stringify x.1, stringify x.2)) = [("\"ping\"", "42")] := by
  decide!

/-- C19 as amended: `onMessage` does not read the ready flag; in every state
with ready = false a `message` envelope carrying event e and data p is
dispatched as the application event e with payload p all the same, and the
client stays not ready. -/
theorem message_dispatch_ignores_ready (d : Deps) (msg : String) (v op e p : JsVal)
    (w : World) (hstate : w.self.ready = false)
    (hparse : d.jsonParse msg = Except.ok v) (hop : getProp v "op" = Except.ok op)
    (hid : strictEq op d.OPCODE.identify = false)
    (hready : strictEq op d.OPCODE.ready = false)
    (hmsg : strictEq op d.OPCODE.message = true)
    (he : getD v "event" = Except.ok e) (hp : getD v "data" = Except.ok p) :
    (onMessage d msg w).world.emitted = w.emitted ++ [(e, p)] ∧
    (onMessage d msg w).world.self.ready = false ∧
    (onMessage d msg w).thrown = none := by
  rw [onMessage_message d msg v op e p w hparse hop hid hready hmsg he hp]
  exact ⟨rfl, hstate, rfl⟩

theorem message_dispatch_ignores_ready_witness :
    ((run sampleDeps [Event.opened] sampleWorld).self.ready = false ∧
      sampleDeps.jsonParse pingFrame = Except.ok (JsVal.obj [("op", JsVal.str "message"),
        ("d", JsVal.obj [("event", JsVal.str "ping"), ("data", JsVal.num 42)])])) ∧
    ((onMessage sampleDeps pingFrame (run sampleDeps [Event.opened] sampleWorld)).world.emitted
        = (run sampleDeps [Event.opened] sampleWorld).emitted ++
          [(JsVal.str "ping", JsVal.num 42)] ∧
      (onMessage sampleDeps pingFrame
        (run sampleDeps [Event.opened] sampleWorld)).world.self.ready = false ∧
      (onMessage sampleDeps pingFrame (run sampleDeps [Event.opened] sampleWorld)).thrown
        = none) :=
  ⟨⟨rfl, rfl⟩,
    message_dispatch_ignores_ready sampleDeps pingFrame
      (JsVal.obj [("op", JsVal.str "message"),
        ("d", JsVal.obj [("event", JsVal.str "ping"), ("data", JsVal.num 42)])])
      (JsVal.str "message") (JsVal.str "ping") (JsVal.num 42)
      (run sampleDeps [Event.opened] sampleWorld)
      rfl rfl rfl rfl rfl rfl rfl rfl⟩

/-! ## The ready handshake (C12) -/

/-- C12: handling a `ready` envelope whose payload `d` is an object stores
`d.heartbeat`, `shardId = d.sid` and `shardCount = d.sc`, marks the client
ready, arms the heartbeat interval and stores its handle, and emits the ready
event (named `ws_ready`) with payload `d` once; after it, the reshard event
(named `ws_reshard`) with payload `d` is emitted exactly when `d.reshard` is
truthy (an absent `reshard` reads as `undefined`).  Nothing else changes and
no exception is raised. -/
theorem ready_stores_and_emits (d : Deps) (msg : String) (v op : JsVal)
    (kvs : List (String × JsVal)) (w : World)
    (hparse : d.jsonParse msg = Except.ok v) (hop : getProp v "op" = Except.ok op)
    (hid : strictEq op d.OPCODE.identify = false)
    (hready : strictEq op d.OPCODE.ready = true)
    (hd : getProp v "d" = Except.ok (JsVal.obj kvs)) :
    onMessage d msg w =
      ⟨{ w with
          self := { w.self with
            hearbeat := lookupKey "heartbeat" kvs
            ready := true
            hearbeatInterval := some w.nextHandle
            shardId := lookupKey "sid" kvs
            shardCount := lookupKey "sc" kvs }
          nextHandle := w.nextHandle + 1
          timers := w.timers ++
            [{ id := w.nextHandle, repeating := true,
               delay := (toNumber (lookupKey "heartbeat" kvs)).map
                 (fun b => ((b - 3000 : Int) : ℚ)),
               due := ((toNumber (lookupKey "heartbeat" kvs)).map
                 (fun b => ((b - 3000 : Int) : ℚ))).map (fun t => w.now + t),
               action := TimerAction.heartbeatTick (lookupKey "heartbeat" kvs) }]
          emitted := w.emitted ++ [(JsVal.str "ws_ready", JsVal.obj kvs)] ++
            (if truthy (lookupKey "reshard" kvs) then
              [(JsVal.str "ws_reshard", JsVal.obj kvs)] else []) }, none⟩ := by
  rw [onMessage_ready d msg v op w hparse hop hid hready]
  unfold onReady
  simp only [getD, hd]
  simp only [getProp]
  by_cases hr : truthy (lookupKey "reshard" kvs) = true
  · simp [hr, setupHeartbeat, setInterval, setTimer, emit]
  · simp [hr, setupHeartbeat, setInterval, setTimer, emit]

theorem ready_stores_and_emits_witness :
    (sampleDeps.jsonParse readyFrameReshard = Except.ok (JsVal.obj [("op", JsVal.str "ready"),
        ("d", JsVal.obj [("heartbeat", JsVal.num 10000), ("sid", JsVal.num 1),
          ("sc", JsVal.num 2), ("reshard", JsVal.bool true)])])) ∧
    ((onMessage sampleDeps readyFrameReshard sampleWorld).world.emitted.map
        (fun x => (stringify x.1, stringify x.2)) =
      [("\"ws_ready\"", "\x7b\"heartbeat\":10000,\"sid\":1,\"sc\":2,\"reshard\":true\x7d"),
       ("\"ws_reshard\"", "\x7b\"heartbeat\":10000,\"sid\":1,\"sc\":2,\"reshard\":true\x7d")] ∧
      (onMessage sampleDeps readyFrame sampleWorld).world.emitted.map
        (fun x => (stringify x.1, stringify x.2)) =
      [("\"ws_ready\"", "\x7b\"heartbeat\":10000,\"sid\":0,\"sc\":2\x7d")]) ∧
    onMessage sampleDeps readyFrameReshard sampleWorld =
      ⟨{ sampleWorld with
          self := { sampleWorld.self with
            hearbeat := JsVal.num 10000
            ready := true
            hearbeatInterval := some 0
            shardId := JsVal.num 1
            shardCount := JsVal.num 2 }
          nextHandle := 1
          timers :=
            [{ id := 0, repeating := true, delay := some ((10000 - 3000 : Int) : ℚ),
               due := some (0 + ((10000 - 3000 : Int) : ℚ)),
               action := TimerAction.heartbeatTick (JsVal.num 10000) }]
          emitted :=
            [(JsVal.str "ws_ready", JsVal.obj [("heartbeat", JsVal.num 10000),
                ("sid", JsVal.num 1), ("sc", JsVal.num 2), ("reshard", JsVal.bool true)]),
             (JsVal.str "ws_reshard", JsVal.obj [("heartbeat", JsVal.num 10000),
                ("sid", JsVal.num 1), ("sc", JsVal.num 2), ("reshard", JsVal.bool true)])] },
        none⟩ :=
  ⟨rfl, by decide!,
    ready_stores_and_emits sampleDeps readyFrameReshard
      (JsVal.obj [("op", JsVal.str "ready"),
        ("d", JsVal.obj [("heartbeat", JsVal.num 10000), ("sid", JsVal.num 1),
          ("sc", JsVal.num 2), ("reshard", JsVal.bool true)])])
      (JsVal.str "ready")
      [("heartbeat", JsVal.num 10000), ("sid", JsVal.num 1), ("sc", JsVal.num 2),
        ("reshard", JsVal.bool true)]
      sampleWorld rfl rfl rfl rfl rfl⟩

/-! ## Construction (C13) -/

theorem new_eq_construct (shardToken host : JsVal) (writable : Bool) :
    Worker.new shardToken host writable =
      (match (Worker.construct shardToken host (World.start writable)).thrown with
        | some e => Except.error e
        | none => Except.ok (Worker.construct shardToken host (World.start writable)).world) := by
  unfold Worker.new Worker.construct
  by_cases h1 : truthy shardToken = true <;> by_cases h2 : truthy host = true <;>
    (simp [h1, h2]; try rfl)

/-- C13: constructing a client with a token and a host that are strings or
absent fails exactly when the token is absent or empty or the host is absent
or empty.  A failing construction throws one of the two configuration errors
and leaves the world it was called in untouched: no socket is created (the
socket count is as before), nothing is emitted, no timer is armed.  With both
non-empty it succeeds: token and host stored, shard identity `null`,
ready = false, connected = false, heartbeat = -1, and exactly one more socket,
created by the one call of `connect()` and held in `ws`. -/
theorem constructor_checks_arguments (token host : Option String) (writable : Bool) :
    ((∃ e, Worker.new (stringArg token) (stringArg host) writable = Except.error e) ↔
      (token = none ∨ token = some "" ∨ host = none ∨ host = some "")) ∧
    (∀ t h : String, token = some t → host = some h → t ≠ "" → h ≠ "" →
      Worker.new (stringArg token) (stringArg host) writable = Except.ok
        { self :=
            { host := JsVal.str h, token := JsVal.str t, connectionAttempts := 0, ws := 0,
              shardId := JsVal.null, shardCount := JsVal.null,
              ready := false, connected := false, hearbeat := JsVal.num (-1),
              hearbeatInterval := none, hearbeatTimeout := none }
          now := 0, nextHandle := 0, timers := [], emitted := [], sockets := 1,
          sent := [], closeCalls := [], writable := writable }) ∧
    (∀ w : World,
      ((Worker.construct (stringArg token) (stringArg host) w).thrown ≠ none ↔
        (token = none ∨ token = some "" ∨ host = none ∨ host = some ""))) ∧
    (∀ w : World, (token = none ∨ token = some "" ∨ host = none ∨ host = some "") →
      (Worker.construct (stringArg token) (stringArg host) w).world = w ∧
      (Worker.construct (stringArg token) (stringArg host) w).world.sockets = w.sockets ∧
      ((Worker.construct (stringArg token) (stringArg host) w).thrown =
          some ⟨"Error", "You need to pass in a secret to use!"⟩ ∨
        (Worker.construct (stringArg token) (stringArg host) w).thrown =
          some ⟨"Error", "You need to pass in a host to connect to!"⟩)) ∧
    (∀ (w : World) (t h : String), token = some t → host = some h → t ≠ "" → h ≠ "" →
      Worker.construct (stringArg token) (stringArg host) w =
        ⟨{ w with
            self :=
              { host := JsVal.str h, token := JsVal.str t, connectionAttempts := 0,
                ws := w.sockets, shardId := JsVal.null, shardCount := JsVal.null,
                ready := false, connected := false, hearbeat := JsVal.num (-1),
                hearbeatInterval := none, hearbeatTimeout := none }
            sockets := w.sockets + 1 }, none⟩) ∧
    Worker.new (stringArg token) (stringArg host) writable =
      (match (Worker.construct (stringArg token) (stringArg host)
          (World.start writable)).thrown with
        | some e => Except.error e
        | none => Except.ok
            (Worker.construct (stringArg token) (stringArg host) (World.start writable)).world)
    := by
  refine ⟨?_, ?_, ?_, ?_, ?_, new_eq_construct _ _ writable⟩
  · cases token with
    | none => simp [Worker.new, stringArg, truthy]
    | some t =>
      cases host with
      | none =>
        by_cases ht : t = "" <;> simp [Worker.new, stringArg, truthy, ht]
      | some h =>
        by_cases ht : t = "" <;> by_cases hh : h = "" <;>
          simp [Worker.new, stringArg, truthy, ht, hh]
  · intro t h ht hh htne hhne
    subst ht
    subst hh
    simp [Worker.new, stringArg, truthy, htne, hhne, connect, Worker.fields]
  · intro w
    cases token with
    | none => simp [Worker.construct, stringArg, truthy]
    | some t =>
      cases host with
      | none =>
        by_cases ht : t = "" <;> simp [Worker.construct, stringArg, truthy, ht]
      | some h =>
        by_cases ht : t = "" <;> by_cases hh : h = "" <;>
          simp [Worker.construct, stringArg, truthy, ht, hh]
  · intro w hbad
    cases token with
    | none => simp [Worker.construct, stringArg, truthy]
    | some t =>
      cases host with
      | none =>
        by_cases ht : t = "" <;> simp [Worker.construct, stringArg, truthy, ht]
      | some h =>
        by_cases ht : t = "" <;> by_cases hh : h = "" <;>
          simp_all [Worker.construct, stringArg, truthy]
  · intro w t h ht hh htne hhne
    subst ht
    subst hh
    simp [Worker.construct, stringArg, truthy, htne, hhne, connect]

theorem constructor_checks_arguments_witness :
    ((∃ e, Worker.new (stringArg (some "")) (stringArg (some "ws://hub")) true =
        Except.error e) ↔
      ((some "" : Option String) = none ∨ (some "" : Option String) = some "" ∨
        (some "ws://hub" : Option String) = none ∨
        (some "ws://hub" : Option String) = some "")) ∧
    Worker.new (stringArg (some "secret")) (stringArg (some "ws://hub")) true = Except.ok
        { self :=
            { host := JsVal.str "ws://hub", token := JsVal.str "secret",
              connectionAttempts := 0, ws := 0,
              shardId := JsVal.null, shardCount := JsVal.null,
              ready := false, connected := false, hearbeat := JsVal.num (-1),
              hearbeatInterval := none, hearbeatTimeout := none }
          now := 0, nextHandle := 0, timers := [], emitted := [], sockets := 1,
          sent := [], closeCalls := [], writable := true } ∧
    ((Worker.construct (stringArg (some "secret")) (stringArg none) (World.start true)).world
        = World.start true ∧
      (Worker.construct (stringArg (some "secret")) (stringArg none)
        (World.start true)).world.sockets = (World.start true).sockets ∧
      ((Worker.construct (stringArg (some "secret")) (stringArg none) (World.start true)).thrown
          = some ⟨"Error", "You need to pass in a secret to use!"⟩ ∨
        (Worker.construct (stringArg (some "secret")) (stringArg none)
          (World.start true)).thrown =
          some ⟨"Error", "You need to pass in a host to connect to!"⟩)) ∧
    (Worker.construct (stringArg (some "secret")) (stringArg none) (World.start true)).world.sockets
      = 0 ∧
    (Worker.construct (stringArg (some "secret")) (stringArg (some "ws://hub"))
      (World.start true)).world.sockets = 1 :=
  ⟨(constructor_checks_arguments (some "") (some "ws://hub") true).1,
    (constructor_checks_arguments (some "secret") (some "ws://hub") true).2.1
      "secret" "ws://hub" rfl rfl (by decide) (by decide),
    (constructor_checks_arguments (some "secret") none true).2.2.2.1 (World.start true)
      (Or.inr (Or.inr (Or.inl rfl))),
    by decide, by decide⟩

/-! ## The close path (C14) -/

theorem onDisconnect_shape (code number : String) (random : ℚ) (w : World) :
    (onDisconnect code number random w).self =
      { w.self with connected := false, ready := false, hearbeat := JsVal.num (-1) } ∧
    (onDisconnect code number random w).timers =
      (clearTimer w.self.hearbeatInterval w).timers ++
        [{ id := w.nextHandle, repeating := false,
           delay := some (generateInterval w.self.connectionAttempts random),
           due := some (w.now + generateInterval w.self.connectionAttempts random),
           action := TimerAction.reconnectTimer }] ∧
    (onDisconnect code number random w).nextHandle = w.nextHandle + 1 ∧
    (onDisconnect code number random w).now = w.now ∧
    (onDisconnect code number random w).closeCalls = w.closeCalls ∧
    (onDisconnect code number random w).sockets = w.sockets ∧
    (onDisconnect code number random w).sent = w.sent := by
  cases hh : w.self.hearbeatInterval <;>
    simp [onDisconnect, setTimeout, setTimer, clearInterval, clearTimer, emit, hh]

/-- C14: in every state, handling a transport close event sets ready = false,
connected = false and heartbeat = -1 and leaves token, host, shardId,
shardCount and the retry counter as they were; it arms exactly one new
one-shot timer, the reconnect timer, with delay `generateInterval` of the
current retry counter, next to the timers that survive `clearInterval`; it
creates no socket and closes none. -/
theorem close_resets_and_schedules_reconnect (code number : String) (random : ℚ)
    (w : World) :
    ((onDisconnect code number random w).self.ready = false ∧
      (onDisconnect code number random w).self.connected = false ∧
      (onDisconnect code number random w).self.hearbeat = JsVal.num (-1)) ∧
    ((onDisconnect code number random w).self.token = w.self.token ∧
      (onDisconnect code number random w).self.host = w.self.host ∧
      (onDisconnect code number random w).self.shardId = w.self.shardId ∧
      (onDisconnect code number random w).self.shardCount = w.self.shardCount ∧
      (onDisconnect code number random w).self.connectionAttempts =
        w.self.connectionAttempts) ∧
    (onDisconnect code number random w).timers =
      (clearInterval w.self.hearbeatInterval w).timers ++
        [{ id := w.nextHandle, repeating := false,
           delay := some (generateInterval w.self.connectionAttempts random),
           due := some (w.now + generateInterval w.self.connectionAttempts random),
           action := TimerAction.reconnectTimer }] ∧
    (onDisconnect code number random w).sockets = w.sockets ∧
    (onDisconnect code number random w).closeCalls = w.closeCalls := by
  obtain ⟨hs, ht, _, _, hc, hk, _⟩ := onDisconnect_shape code number random w
  rw [hs]
  exact ⟨⟨rfl, rfl, rfl⟩, ⟨rfl, rfl, rfl, rfl, rfl⟩, ht, hk, hc⟩

/-! ## The retry counter after an open (C15) -/

theorem fire_oneshot (d : Deps) (W : World) (ts : List Timer) (t : Timer)
    (hts : W.timers = ts ++ [t]) (hne : ∀ u ∈ ts, u.id ≠ t.id)
    (hrep : t.repeating = false) :
    fire d t.id W = runAction d t.action
      { W with
        now := (match t.due with
          | some x => max W.now x
          | none => W.now)
        timers := ts } := by
  unfold fire
  rw [hts, find_fresh ts t hne]
  have hf : List.filter (fun u => u.id != t.id) ts = ts := by
    rw [List.filter_eq_self]
    intro u hu
    simpa using hne u hu
  simp [hrep, List.filter_append, hf]

theorem clearTimer_subset (h : Option Nat) (w : World) :
    ∀ t ∈ (clearTimer h w).timers, t ∈ w.timers := by
  intro t ht
  cases h with
  | none => exact ht
  | some x =>
    simp only [clearTimer] at ht
    exact (List.mem_filter.mp ht).1

theorem dropped_step (d : Deps) (code number : String) (random : ℚ) (w : World)
    (h : handlesBelow w = true) :
    handlesBelow (fire d w.nextHandle (onDisconnect code number random w)) = true ∧
    (fire d w.nextHandle (onDisconnect code number random w)).self.connectionAttempts =
      w.self.connectionAttempts + 1 := by
  obtain ⟨hs, ht, hn, _, _, _, _⟩ := onDisconnect_shape code number random w
  have hlt : ∀ u ∈ (clearTimer w.self.hearbeatInterval w).timers, u.id < w.nextHandle := by
    intro u hu
    have hu' := clearTimer_subset _ _ u hu
    simp only [handlesBelow, List.all_eq_true, decide_eq_true_eq] at h
    exact h u hu'
  have hfire := fire_oneshot d (onDisconnect code number random w)
    (clearTimer w.self.hearbeatInterval w).timers
    { id := w.nextHandle, repeating := false,
      delay := some (generateInterval w.self.connectionAttempts random),
      due := some (w.now + generateInterval w.self.connectionAttempts random),
      action := TimerAction.reconnectTimer } ht
    (fun u hu => Nat.ne_of_lt (hlt u hu)) rfl
  simp only at hfire
  rw [hfire]
  constructor
  · simp only [handlesBelow, List.all_eq_true, decide_eq_true_eq, runAction, reconnectTimer,
      connect, hn]
    intro u hu
    exact Nat.lt_succ_of_lt (hlt u hu)
  · simp [runAction, reconnectTimer, connect, hs]

theorem droppedConnections_counter (d : Deps) (closes : List (String × String × ℚ)) :
    ∀ w : World, handlesBelow w = true →
      (droppedConnections d closes w).self.connectionAttempts =
        w.self.connectionAttempts + closes.length := by
  induction closes with
  | nil => intro w _; simp [droppedConnections]
  | cons c rest ih =>
    intro w h
    obtain ⟨code, number, random⟩ := c
    have hs := dropped_step d code number random w h
    simp only [droppedConnections, List.length_cons]
    rw [ih _ hs.1, hs.2]
    omega

theorem onReady_counter (v : JsVal) (w : World) :
    (onReady v w).world.self.connectionAttempts = w.self.connectionAttempts := by
  unfold onReady
  repeat' split
  all_goals simp [setupHeartbeat, setInterval, setTimer, emit]

theorem onMessage_counter (d : Deps) (msg : String) (w : World) :
    (onMessage d msg w).world.self.connectionAttempts = w.self.connectionAttempts := by
  unfold onMessage
  cases d.jsonParse msg with
  | error e => rfl
  | ok v =>
    simp only
    cases getProp v "op" with
    | error e => rfl
    | ok op =>
      simp only
      split
      · unfold wsSend
        cases w.writable <;> simp
      · split
        · exact onReady_counter v w
        · split
          · repeat' split
            all_goals simp [emit]
          · split
            · cases hh : w.self.hearbeatTimeout <;> simp [clearTimeout, clearTimer, hh]
            · split <;> simp [emit]

theorem fire_counter (d : Deps) (h : Nat) (w : World) :
    w.self.connectionAttempts ≤ (fire d h w).self.connectionAttempts := by
  unfold fire
  cases w.timers.find? (fun t => t.id == h) with
  | none => exact Nat.le_refl _
  | some t =>
    simp only
    cases t.action with
    | heartbeatTick beat =>
      simp only [runAction, heartbeatTick, wsSend]
      cases w.writable <;> simp [reconnect, emit, setTimeout, setTimer]
    | ackTimeout => simp [runAction, ackTimeout, reconnect, emit]
    | reconnectTimer => simp [runAction, reconnectTimer, connect]

theorem handlesBelow_iff (w : World) :
    handlesBelow w = true ↔ ∀ t ∈ w.timers, t.id < w.nextHandle := by
  simp [handlesBelow]

theorem handlesBelow_congr (w u : World) (ht : u.timers = w.timers)
    (hn : u.nextHandle = w.nextHandle) (h : handlesBelow w = true) :
    handlesBelow u = true := by
  rw [handlesBelow_iff] at h ⊢
  rw [ht, hn]
  exact h

theorem handlesBelow_setTimer (rep : Bool) (delay : Option ℚ) (action : TimerAction)
    (w : World) (h : handlesBelow w = true) :
    handlesBelow (setTimer rep delay action w).2 = true := by
  rw [handlesBelow_iff] at h ⊢
  intro t ht
  simp only [setTimer, List.mem_append, List.mem_singleton] at ht
  rcases ht with ht | ht
  · exact Nat.lt_succ_of_lt (h t ht)
  · subst ht
    exact Nat.lt_succ_self _

theorem handlesBelow_clearTimer (hd : Option Nat) (w : World) (h : handlesBelow w = true) :
    handlesBelow (clearTimer hd w) = true := by
  rw [handlesBelow_iff] at h ⊢
  intro t ht
  have hn : (clearTimer hd w).nextHandle = w.nextHandle := by
    cases hd <;> rfl
  rw [hn]
  exact h t (clearTimer_subset hd w t ht)

theorem handlesBelow_onDisconnect (code number : String) (random : ℚ) (w : World)
    (h : handlesBelow w = true) :
    handlesBelow (onDisconnect code number random w) = true := by
  have h1 := handlesBelow_setTimer false
    (some (generateInterval w.self.connectionAttempts random)) TimerAction.reconnectTimer
    (clearTimer w.self.hearbeatInterval w) (handlesBelow_clearTimer _ w h)
  obtain ⟨_, ht, hn, _⟩ := onDisconnect_shape code number random w
  refine handlesBelow_congr _ _ ?_ ?_ h1
  · rw [ht]
    cases hh : w.self.hearbeatInterval <;> simp [setTimer, clearTimer]
  · rw [hn]
    cases hh : w.self.hearbeatInterval <;> simp [setTimer, clearTimer]

theorem handlesBelow_heartbeatTick (d : Deps) (beat : JsVal) (w : World)
    (h : handlesBelow w = true) : handlesBelow (heartbeatTick d beat w) = true := by
  unfold heartbeatTick wsSend
  cases hw : w.writable
  · exact handlesBelow_congr w _ rfl rfl h
  · exact handlesBelow_congr _ _ rfl rfl
      (handlesBelow_setTimer false ((toNumber beat).map (fun b => ((b + 5000 : Int) : ℚ)))
        TimerAction.ackTimeout
        { w with sent := w.sent ++ [(w.self.ws, d.jsonStringify (heartbeatEnvelope d w))] }
        (handlesBelow_congr w _ rfl rfl h))

theorem handlesBelow_runAction (d : Deps) (a : TimerAction) (w : World)
    (h : handlesBelow w = true) : handlesBelow (runAction d a w) = true := by
  cases a with
  | heartbeatTick beat => exact handlesBelow_heartbeatTick d beat w h
  | ackTimeout => exact handlesBelow_congr w _ rfl rfl h
  | reconnectTimer => exact handlesBelow_congr w _ rfl rfl h

theorem handlesBelow_fire (d : Deps) (hd : Nat) (w : World) (h : handlesBelow w = true) :
    handlesBelow (fire d hd w) = true := by
  unfold fire
  cases w.timers.find? (fun t => t.id == hd) with
  | none => exact h
  | some t =>
    simp only
    apply handlesBelow_runAction
    rw [handlesBelow_iff] at h ⊢
    intro u hu
    simp only at hu
    split at hu
    · obtain ⟨x, hx, hxu⟩ := List.mem_map.mp hu
      have hid : u.id = x.id := by
        rw [← hxu]
        split <;> rfl
      rw [hid]
      exact h x hx
    · exact h u (List.mem_filter.mp hu).1

theorem handlesBelow_onReady (v : JsVal) (w : World) (h : handlesBelow w = true) :
    handlesBelow (onReady v w).world = true := by
  unfold onReady
  split
  · exact h
  · rename_i hb _
    have h1 := handlesBelow_setTimer true ((toNumber hb).map (fun b => ((b - 3000 : Int) : ℚ)))
      (TimerAction.heartbeatTick hb) w h
    repeat' split
    all_goals exact handlesBelow_congr _ _ rfl rfl h1

theorem handlesBelow_onMessage (d : Deps) (msg : String) (w : World)
    (h : handlesBelow w = true) : handlesBelow (onMessage d msg w).world = true := by
  unfold onMessage
  cases d.jsonParse msg with
  | error e => exact handlesBelow_congr w _ rfl rfl h
  | ok v =>
    simp only
    cases getProp v "op" with
    | error e => exact h
    | ok op =>
      simp only
      split
      · unfold wsSend
        cases w.writable
        · exact h
        · exact handlesBelow_congr w _ rfl rfl h
      · split
        · exact handlesBelow_onReady v w h
        · split
          · repeat' split
            all_goals exact h
          · split
            · exact handlesBelow_clearTimer _ w h
            · split <;> exact handlesBelow_congr w _ rfl rfl h

theorem handlesBelow_step (d : Deps) (ev : Event) (w : World) (h : handlesBelow w = true) :
    handlesBelow (step d ev w).world = true := by
  cases ev with
  | opened => exact handlesBelow_congr w _ rfl rfl h
  | message msg => exact handlesBelow_onMessage d msg w h
  | error err => exact handlesBelow_congr w _ rfl rfl h
  | close code number random => exact handlesBelow_onDisconnect code number random w h
  | fire hd => exact handlesBelow_fire d hd w h
  | transport b => exact handlesBelow_congr w _ rfl rfl h

theorem handlesBelow_run (d : Deps) (evs : List Event) :
    ∀ w : World, handlesBelow w = true → handlesBelow (run d evs w) = true := by
  induction evs with
  | nil => intro w h; exact h
  | cons ev rest ih =>
    intro w h
    exact ih _ (handlesBelow_step d ev w h)

theorem handlesBelow_new (shardToken host : JsVal) (writable : Bool) (w : World)
    (h : Worker.new shardToken host writable = Except.ok w) : handlesBelow w = true := by
  unfold Worker.new at h
  split at h
  · cases h
  · split at h
    · cases h
    · cases h
      rfl

/-- C15: in every state in which timer handles were given out in increasing
order (every state reached from construction, `handlesBelow_run`), whatever
the retry counter was, a transport open event sets it to exactly 1
and sets connected = true; after that open followed by m dropped connections
(each close followed by the firing of the reconnect timer it scheduled, no
further open) the counter equals 1 + m; and no event other than an open ever
lowers the counter. -/
theorem open_resets_counter (d : Deps) (w : World) (closes : List (String × String × ℚ))
    (h : handlesBelow w = true) :
    (step d Event.opened w).world.self.connectionAttempts = 1 ∧
    (step d Event.opened w).world.self.connected = true ∧
    (droppedConnections d closes (step d Event.opened w).world).self.connectionAttempts =
      1 + closes.length ∧
    (∀ (ev : Event) (u : World), ev ≠ Event.opened →
      u.self.connectionAttempts ≤ (step d ev u).world.self.connectionAttempts) := by
  refine ⟨rfl, rfl, ?_, ?_⟩
  · rw [droppedConnections_counter d closes _ (by simpa [handlesBelow, step, onConnection] using h)]
    rfl
  · intro ev u hev
    cases ev with
    | opened => exact absurd rfl hev
    | message msg => exact Nat.le_of_eq (onMessage_counter d msg u).symm
    | error err => exact Nat.le_refl _
    | close code number random =>
      exact Nat.le_of_eq (by
        simp [step, (onDisconnect_shape code number random u).1])
    | fire hd => exact fire_counter d hd u
    | transport b => exact Nat.le_refl _

theorem open_resets_counter_witness :
    handlesBelow (failedAttempts sampleDeps [("1006", "", 1 / 2), ("1006", "", 1 / 3)]
      sampleWorld) = true ∧
    (failedAttempts sampleDeps [("1006", "", 1 / 2), ("1006", "", 1 / 3)]
      sampleWorld).self.connectionAttempts = 2 ∧
    (step sampleDeps Event.opened
      (failedAttempts sampleDeps [("1006", "", 1 / 2), ("1006", "", 1 / 3)]
        sampleWorld)).world.self.connectionAttempts = 1 ∧
    (droppedConnections sampleDeps [("1006", "", 1 / 2), ("1006", "", 1 / 4), ("1006", "", 0)]
      (step sampleDeps Event.opened
        (failedAttempts sampleDeps [("1006", "", 1 / 2), ("1006", "", 1 / 3)]
          sampleWorld)).world).self.connectionAttempts = 1 + 3 :=
  ⟨by decide!, by decide!,
    (open_resets_counter sampleDeps
      (failedAttempts sampleDeps [("1006", "", 1 / 2), ("1006", "", 1 / 3)] sampleWorld)
      [("1006", "", 1 / 2), ("1006", "", 1 / 4), ("1006", "", 0)] (by decide!)).1,
    (open_resets_counter sampleDeps
      (failedAttempts sampleDeps [("1006", "", 1 / 2), ("1006", "", 1 / 3)] sampleWorld)
      [("1006", "", 1 / 2), ("1006", "", 1 / 4), ("1006", "", 0)] (by decide!)).2.2.1⟩

/-! ## The backoff cap (C16) -/

theorem maxInterval_eq_min (k : Nat) :
    maxInterval k = min ((2 : ℚ) ^ k - 1) 30 * 1000 := by
  unfold maxInterval
  by_cases hc : ((2 : ℚ) ^ k - 1) * 1000 > 30 * 1000
  · have : (30 : ℚ) ≤ (2 : ℚ) ^ k - 1 := by linarith
    simp only [hc, if_true, min_eq_right this]
  · have : (2 : ℚ) ^ k - 1 ≤ 30 := by linarith
    simp only [hc, if_false, min_eq_left this]

/-- C16: the cap `maxInterval` that `generateInterval(k)` multiplies the
random draw with is min(2^k - 1, 30) * 1000; it is non-decreasing in k (for
all attempt counts, those from 1 on among them), equal to 30000 for every
k ≥ 5, and a draw 0 ≤ r < 1 gives a delay strictly below 30000 ms. -/
theorem backoff_cap_monotone_then_constant (j k : Nat) (r : ℚ) (hjk : j ≤ k)
    (h0 : 0 ≤ r) (h1 : r < 1) :
    generateInterval k r = r * maxInterval k ∧
    maxInterval k = min ((2 : ℚ) ^ k - 1) 30 * 1000 ∧
    maxInterval j ≤ maxInterval k ∧
    (5 ≤ k → maxInterval k = 30000) ∧
    generateInterval k r < 30000 := by
  have hk1 : (1 : ℚ) ≤ (2 : ℚ) ^ k := one_le_pow₀ (by norm_num)
  have hpow : (2 : ℚ) ^ j ≤ (2 : ℚ) ^ k := pow_le_pow_right₀ (by norm_num) hjk
  have hgen : generateInterval k r = r * maxInterval k := rfl
  have hcap0 : 0 ≤ maxInterval k := by
    rw [maxInterval_eq_min]
    have : (0 : ℚ) ≤ min ((2 : ℚ) ^ k - 1) 30 := le_min (by linarith) (by norm_num)
    positivity
  have hcap30 : maxInterval k ≤ 30000 := by
    rw [maxInterval_eq_min]
    have : min ((2 : ℚ) ^ k - 1) 30 ≤ 30 := min_le_right _ _
    linarith
  refine ⟨hgen, maxInterval_eq_min k, ?_, ?_, ?_⟩
  · rw [maxInterval_eq_min, maxInterval_eq_min]
    have : min ((2 : ℚ) ^ j - 1) 30 ≤ min ((2 : ℚ) ^ k - 1) 30 :=
      min_le_min (by linarith) (le_refl _)
    linarith
  · intro h5
    have h32 : (2 : ℚ) ^ 5 ≤ (2 : ℚ) ^ k := pow_le_pow_right₀ (by norm_num) h5
    rw [maxInterval_eq_min, min_eq_right (by norm_num at h32; linarith)]
    norm_num
  · rw [hgen]
    nlinarith

theorem backoff_cap_monotone_then_constant_witness :
    (4 ≤ 7 ∧ (0 : ℚ) ≤ 999 / 1000 ∧ (999 / 1000 : ℚ) < 1) ∧
    (maxInterval 1 = 1000 ∧ maxInterval 4 = 15000 ∧ maxInterval 5 = 30000 ∧
      maxInterval 7 = 30000 ∧ generateInterval 7 (999 / 1000) = 29970) ∧
    (generateInterval 7 (999 / 1000) = 999 / 1000 * maxInterval 7 ∧
      maxInterval 7 = min ((2 : ℚ) ^ 7 - 1) 30 * 1000 ∧
      maxInterval 4 ≤ maxInterval 7 ∧
      (5 ≤ 7 → maxInterval 7 = 30000) ∧
      generateInterval 7 (999 / 1000) < 30000) :=
  ⟨by norm_num, by decide!,
    backoff_cap_monotone_then_constant 4 7 (999 / 1000) (by decide)
      (by norm_num) (by norm_num)⟩

/-! ## Heartbeat acknowledgement and rejected credentials (C17, C18) -/

theorem onMessage_heartbeat (d : Deps) (msg : String) (v op : JsVal) (w : World)
    (hparse : d.jsonParse msg = Except.ok v) (hop : getProp v "op" = Except.ok op)
    (hid : strictEq op d.OPCODE.identify = false)
    (hready : strictEq op d.OPCODE.ready = false)
    (hmsg : strictEq op d.OPCODE.message = false)
    (hhb : strictEq op d.OPCODE.hearbeat = true) :
    onMessage d msg w = ⟨clearTimeout w.self.hearbeatTimeout w, none⟩ := by
  unfold onMessage
  simp [hparse, hop, hid, hready, hmsg, hhb]

theorem clearTimeout_eq (w : World) :
    clearTimeout w.self.hearbeatTimeout w =
      { w with timers :=
          w.timers.filter (fun t => decide (some t.id ≠ w.self.hearbeatTimeout)) } := by
  cases hh : w.self.hearbeatTimeout with
  | none => simp [clearTimeout, clearTimer]
  | some x =>
    simp only [clearTimeout, clearTimer]
    congr 1
    apply List.filter_congr
    intro t _
    by_cases hx : t.id = x <;> simp [bne, hx]

/-- What the `heartbeat` case does in every state: it returns normally and
changes the world only by disarming the timer whose handle `hearbeatTimeout`
holds: nothing is emitted or sent, no field of the worker changes.  Handling
a second one gives the same world as handling one; when no armed timer has
that handle (none was armed, or it already fired) the world is unchanged; and
when every pending ack timeout has that handle, none is pending afterwards. -/
theorem heartbeat_cancels_ack_timeout (d : Deps) (msg : String) (v op : JsVal) (w : World)
    (hparse : d.jsonParse msg = Except.ok v) (hop : getProp v "op" = Except.ok op)
    (hid : strictEq op d.OPCODE.identify = false)
    (hready : strictEq op d.OPCODE.ready = false)
    (hmsg : strictEq op d.OPCODE.message = false)
    (hhb : strictEq op d.OPCODE.hearbeat = true) :
    onMessage d msg w =
      ⟨{ w with timers :=
          w.timers.filter (fun t => decide (some t.id ≠ w.self.hearbeatTimeout)) }, none⟩ ∧
    onMessage d msg (onMessage d msg w).world = onMessage d msg w ∧
    ((∀ t ∈ w.timers, some t.id ≠ w.self.hearbeatTimeout) → onMessage d msg w = ⟨w, none⟩) ∧
    ((∀ t ∈ ackTimeouts w, some t.id = w.self.hearbeatTimeout) →
      ackTimeouts (onMessage d msg w).world = []) := by
  have h1 := onMessage_heartbeat d msg v op w hparse hop hid hready hmsg hhb
  rw [clearTimeout_eq] at h1
  refine ⟨h1, ?_, ?_, ?_⟩
  · rw [onMessage_heartbeat d msg v op _ hparse hop hid hready hmsg hhb, clearTimeout_eq, h1]
    simp
  · intro hno
    rw [h1]
    have : w.timers.filter (fun t => decide (some t.id ≠ w.self.hearbeatTimeout)) = w.timers := by
      rw [List.filter_eq_self]
      intro t ht
      simpa using hno t ht
    rw [this]
  · intro hall
    rw [h1]
    simp only [ackTimeouts, List.filter_filter]
    rw [List.filter_eq_nil_iff]
    intro t ht hc
    simp only [Bool.and_eq_true, decide_eq_true_eq] at hc
    have hmem : t ∈ ackTimeouts w := by
      simp only [ackTimeouts]
      exact List.mem_filter.mpr ⟨ht, hc.1⟩
    exact hc.2 (hall t hmem)

theorem heartbeat_cancels_ack_timeout_witness :
    (sampleDeps.jsonParse heartbeatFrame =
        Except.ok (JsVal.obj [("op", JsVal.str "heartbeat")]) ∧
      (ackTimeouts (run sampleDeps [Event.opened, Event.message readyFrame, Event.fire 0]
        sampleWorld)).map (fun t => t.id) = [1] ∧
      (run sampleDeps [Event.opened, Event.message readyFrame, Event.fire 0]
        sampleWorld).self.hearbeatTimeout = some 1) ∧
    (ackTimeouts (onMessage sampleDeps heartbeatFrame
      (run sampleDeps [Event.opened, Event.message readyFrame, Event.fire 0]
        sampleWorld)).world).length = 0 ∧
    onMessage sampleDeps heartbeatFrame (onMessage sampleDeps heartbeatFrame
      (run sampleDeps [Event.opened, Event.message readyFrame, Event.fire 0]
        sampleWorld)).world =
      onMessage sampleDeps heartbeatFrame
        (run sampleDeps [Event.opened, Event.message readyFrame, Event.fire 0] sampleWorld) :=
  ⟨⟨rfl, by decide!, by decide!⟩, by decide!,
    (heartbeat_cancels_ack_timeout sampleDeps heartbeatFrame
      (JsVal.obj [("op", JsVal.str "heartbeat")]) (JsVal.str "heartbeat")
      (run sampleDeps [Event.opened, Event.message readyFrame, Event.fire 0] sampleWorld)
      rfl rfl rfl rfl rfl rfl).2.1⟩

/-- C17, the code at the failing input.  After `ready` (heartbeat 10000) the
interval ticks at 7000 and 14000 ms; two ack timeouts are pending (handles 1
and 2, due at 22000 and 29000 ms) and `hearbeatTimeout` holds handle 2.  The
server's `heartbeat` envelope, arriving at 14000 ms, cancels handle 2 only:
ack timeout 1 stays pending.  The server also answers the tick at 21000 ms;
still, at 22000 ms ack timeout 1 fires, the heartbeat error is emitted and
`close` is called on socket 0, although every envelope of the server arrived
within 15000 ms of the tick before it. -/
theorem heartbeat_leaves_earlier_timeout :
    (ackTimeouts twoTicksUnacked).map (fun t => (t.id, t.due)) =
      [(1, some 22000), (2, some 29000)] ∧
    twoTicksUnacked.self.hearbeatTimeout = some 2 ∧ twoTicksUnacked.now = 14000 ∧
    (ackTimeouts (onMessage sampleDeps heartbeatFrame twoTicksUnacked).world).map
      (fun t => (t.id, t.due)) = [(1, some 22000)] ∧
    (ackTimeouts ackedTwice).map (fun t => (t.id, t.due)) = [(1, some 22000)] ∧
    ackedTwice.now = 21000 ∧ heartbeatErrors ackedTwice = 0 ∧ ackedTwice.closeCalls = [] ∧
    (fireNext sampleDeps ackedTwice).now = 22000 ∧
    heartbeatErrors (fireNext sampleDeps ackedTwice) = 1 ∧
    (fireNext sampleDeps ackedTwice).closeCalls = [0] := by
  decide!

/-- C18: in every state, handling an `unauthorized` envelope returns normally
and changes the world only by one more emitted `error` event saying that the
token was not accepted: the socket is not closed, no reconnect is scheduled,
no timer and no field of the worker changes. -/
theorem unauthorized_only_reports (d : Deps) (msg : String) (v op : JsVal) (w : World)
    (hparse : d.jsonParse msg = Except.ok v) (hop : getProp v "op" = Except.ok op)
    (hid : strictEq op d.OPCODE.identify = false)
    (hready : strictEq op d.OPCODE.ready = false)
    (hmsg : strictEq op d.OPCODE.message = false)
    (hhb : strictEq op d.OPCODE.hearbeat = false)
    (hun : strictEq op d.OPCODE.unauthorized = true) :
    onMessage d msg w =
      ⟨{ w with emitted := w.emitted ++
          [(JsVal.str "error", JsVal.str "The token was not accepted by the server!")] },
        none⟩ := by
  unfold onMessage
  simp [hparse, hop, hid, hready, hmsg, hhb, hun, emit]

theorem unauthorized_only_reports_witness :
    sampleDeps.jsonParse unauthorizedFrame =
      Except.ok (JsVal.obj [("op", JsVal.str "unauthorized")]) ∧
    onMessage sampleDeps unauthorizedFrame silentUntilTimeout =
      ⟨{ silentUntilTimeout with emitted := silentUntilTimeout.emitted ++
          [(JsVal.str "error", JsVal.str "The token was not accepted by the server!")] },
        none⟩ ∧
    (onMessage sampleDeps unauthorizedFrame silentUntilTimeout).world.closeCalls = [0] ∧
    (reconnectTimers (onMessage sampleDeps unauthorizedFrame silentUntilTimeout).world).length
      = 0 :=
  ⟨rfl,
    unauthorized_only_reports sampleDeps unauthorizedFrame
      (JsVal.obj [("op", JsVal.str "unauthorized")]) (JsVal.str "unauthorized")
      silentUntilTimeout rfl rfl rfl rfl rfl rfl rfl,
    by decide!, by decide!⟩

/-! ## The first retry of a client that never connected (C20) -/

/-- C20: on a freshly constructed client the retry counter is 0, so when its
first connection attempt closes without ever opening `generateInterval` is
called with 0, its cap is (2^0 - 1) * 1000 = 0, and the reconnect timer is
armed with delay exactly 0 ms (due at once), whatever the random draw. -/
theorem fresh_first_retry_is_immediate (shardToken host : JsVal) (writable : Bool)
    (w : World) (code number : String) (random : ℚ)
    (h : Worker.new shardToken host writable = Except.ok w) :
    w.self.connectionAttempts = 0 ∧
    maxInterval w.self.connectionAttempts = 0 ∧
    generateInterval w.self.connectionAttempts random = 0 ∧
    (onDisconnect code number random w).timers =
      [{ id := 0, repeating := false, delay := some 0, due := some w.now,
         action := TimerAction.reconnectTimer }] := by
  unfold Worker.new at h
  split at h
  · cases h
  · split at h
    · cases h
    · cases h
      have hg : generateInterval 0 random = 0 := by
        simp [generateInterval]
      refine ⟨rfl, ?_, ?_, ?_⟩
      · simp [connect, Worker.fields, maxInterval]
      · simpa [connect, Worker.fields] using hg
      · rw [(onDisconnect_shape code number random _).2.1]
        simp [connect, Worker.fields, clearTimer, hg]

theorem fresh_first_retry_is_immediate_witness :
    Worker.new (JsVal.str "secret") (JsVal.str "ws://hub") true = Except.ok sampleWorld ∧
    (sampleWorld.self.connectionAttempts = 0 ∧
      maxInterval sampleWorld.self.connectionAttempts = 0 ∧
      generateInterval sampleWorld.self.connectionAttempts (999 / 1000) = 0 ∧
      (onDisconnect "1006" "" (999 / 1000) sampleWorld).timers =
        [{ id := 0, repeating := false, delay := some 0, due := some sampleWorld.now,
           action := TimerAction.reconnectTimer }]) ∧
    (fireNext sampleDeps (onDisconnect "1006" "" (999 / 1000) sampleWorld)).now = 0 ∧
    (fireNext sampleDeps (onDisconnect "1006" "" (999 / 1000) sampleWorld)).sockets = 2 :=
  ⟨rfl,
    fresh_first_retry_is_immediate (JsVal.str "secret") (JsVal.str "ws://hub") true
      sampleWorld "1006" "" (999 / 1000) rfl,
    by decide!, by decide!⟩

end NeroClient
